import Mathlib

/-!
# mpdscribble: configuration resolution (`src/file.c`)

A shallow embedding of `file.c` of mpdscribble: default path computation,
loading of the scalar options and of the scrobbler sections from the parsed
configuration file, and the environment fallbacks of `file_read_config`.

Conventions of the embedding.

* A `char *` is an `Option String`; `NULL` is `none`.
* A C `int` is an `Int`; the sentinel for "not set" is `-1`.
* `g_error(...)` logs and aborts the process.  A function that may call it
  returns `Except String α`; `.error msg` is the abort with the logged text.
* The global `file_config` is passed explicitly: a function that writes to it
  takes the record and returns the new one.
* The process environment, the file system and GLib's key-file parser are
  the fields of a `World`; every theorem holds for every `World`.
* The non-Windows branch of each `#ifndef G_OS_WIN32` is the one embedded.
-/

namespace Mpdscribble

/-! ## GLib key files -/

/-- The error codes of `GKeyFileError` that a lookup can report. -/
inductive GKeyFileError where
  | G_KEY_FILE_ERROR_KEY_NOT_FOUND
  | G_KEY_FILE_ERROR_GROUP_NOT_FOUND
  | G_KEY_FILE_ERROR_INVALID_VALUE
  deriving DecidableEq, Repr

/-- The part of a `GError` that `file.c` reads: `error->code` and `error->message`. -/
structure GError where
  code : GKeyFileError
  message : String
  deriving DecidableEq, Repr

/-- The two things a call of `g_key_file_get_string` gives: the pointer it
returns and the error it sets.  With `ok` no error is set and the value is
returned; with `error` an error is set and `NULL` is returned (the key or the
group is not found); with `invalid` an error is set and a string is returned
all the same: GLib does so for a value with an escape sequence it cannot
interpret, with the code `G_KEY_FILE_ERROR_INVALID_VALUE`. -/
inductive StringLookup where
  | ok (value : String)
  | error (error : GError)
  | invalid (value : String) (error : GError)
  deriving DecidableEq, Repr

/-- A parsed `GKeyFile`, seen through the three queries `file.c` makes.
`g_key_file_get_groups` is the list of group names in file order;
`g_key_file_get_string file group key` is the returned pointer and the error
of the call; `g_key_file_get_integer file group key` is the value, or the
`GError` the call stores through its `error` argument. -/
structure GKeyFile where
  g_key_file_get_groups : List String
  g_key_file_get_string : String → String → StringLookup
  g_key_file_get_integer : String → String → Except GError Int

/-- The result of a lookup whose `error` argument is `NULL`: the caller sees
only the returned pointer. -/
def value_or_null (r : StringLookup) : Option String :=
  match r with
  | .ok v => some v
  | .error _ => none
  | .invalid v _ => some v

/-- The idiom `v = g_key_file_get_string(..., &error); if (error != NULL)
g_error("%s\n", error->message);`: the caller tests only the error. -/
def value_or_abort (r : StringLookup) : Except String String :=
  match r with
  | .ok v => .ok v
  | .error error => .error (error.message ++ "\n")
  | .invalid _ error => .error (error.message ++ "\n")

/-! ### Sample key files

Concrete key files for the examples: a list of sections in file order, each a
list of `key=value` lines.  The lookups follow the GLib documentation: an
unknown group, an unknown key, (for strings) an escape sequence that cannot
be interpreted and (for integers) a value that is not a decimal number are
reported with their error codes. -/

/-- The value of a run of decimal digits, most significant first; `none` if a
character is not a digit. -/
def digits_value : List Char → Nat → Option Nat
  | [], acc => some acc
  | c :: cs, acc =>
    if 48 ≤ c.toNat ∧ c.toNat ≤ 57 then digits_value cs (acc * 10 + (c.toNat - 48))
    else none

/-- A whole value read as a decimal integer with an optional sign. -/
def integer_value (s : String) : Option Int :=
  match s.data with
  | [] => none
  | '-' :: [] => none
  | '+' :: [] => none
  | '-' :: cs => (digits_value cs 0).map fun n => -(n : Int)
  | '+' :: cs => (digits_value cs 0).map fun n => (n : Int)
  | cs => (digits_value cs 0).map fun n => (n : Int)

/-- The raw value of `key` in `group` of the sections, or the lookup error. -/
def sample_lookup (sections : List (String × List (String × String)))
    (group key : String) : Except GError String :=
  match sections.lookup group with
  | none => .error ⟨.G_KEY_FILE_ERROR_GROUP_NOT_FOUND, "Key file does not have group"⟩
  | some entries =>
    match entries.lookup key with
    | none => .error ⟨.G_KEY_FILE_ERROR_KEY_NOT_FOUND, "Key file does not have key"⟩
    | some v => .ok v

/-- The string that GLib makes of a raw value, and whether it met an escape
sequence it cannot interpret.  The flag `escaped` says that the character
before was a backslash (code 92): then `s`, `n`, `t`, `r` and the backslash
stand for a space, a line feed, a tab, a carriage return and a backslash; any
other character is kept behind the backslash and is an error, and a backslash
at the end of the value is dropped and is an error. -/
def sample_unescape : Bool → List Char → List Char × Bool
  | false, [] => ([], false)
  | true, [] => ([], true)
  | false, c :: cs =>
    if c.toNat = 92 then sample_unescape true cs
    else (c :: (sample_unescape false cs).1, (sample_unescape false cs).2)
  | true, c :: cs =>
    if c = 's' then (Char.ofNat 32 :: (sample_unescape false cs).1, (sample_unescape false cs).2)
    else if c = 'n' then
      (Char.ofNat 10 :: (sample_unescape false cs).1, (sample_unescape false cs).2)
    else if c = 't' then
      (Char.ofNat 9 :: (sample_unescape false cs).1, (sample_unescape false cs).2)
    else if c = 'r' then
      (Char.ofNat 13 :: (sample_unescape false cs).1, (sample_unescape false cs).2)
    else if c.toNat = 92 then
      (Char.ofNat 92 :: (sample_unescape false cs).1, (sample_unescape false cs).2)
    else (Char.ofNat 92 :: c :: (sample_unescape false cs).1, true)

/-- The string value of `key` in `group` of the sections, as
`g_key_file_get_string` gives it. -/
def sample_get_string (sections : List (String × List (String × String)))
    (group key : String) : StringLookup :=
  match sample_lookup sections group key with
  | .error e => .error e
  | .ok raw =>
    if (sample_unescape false raw.data).2 then
      .invalid (String.mk (sample_unescape false raw.data).1)
        ⟨.G_KEY_FILE_ERROR_INVALID_VALUE,
          "Key file contains a key which has a value that cannot be interpreted."⟩
    else .ok (String.mk (sample_unescape false raw.data).1)

/-- The key file with the given sections (distinct names, distinct keys). -/
def sample_key_file (sections : List (String × List (String × String))) : GKeyFile where
  g_key_file_get_groups := sections.map Prod.fst
  g_key_file_get_string := sample_get_string sections
  g_key_file_get_integer := fun group key =>
    match sample_lookup sections group key with
    | .error e => .error e
    | .ok v =>
      match integer_value v with
      | some n => .ok n
      | none => .error ⟨.G_KEY_FILE_ERROR_INVALID_VALUE, "Value cannot be interpreted as a number"⟩

/-! ## The configuration record -/

/-- The `enum file_location` of `file.h`. -/
inductive file_location where
  | file_etc
  | file_home
  | file_unknown
  deriving DecidableEq, Repr

/-- The `struct scrobbler_config` of `scrobbler.h`: the four strings `file.c` fills. -/
structure scrobbler_config where
  url : Option String
  username : Option String
  password : Option String
  journal : Option String
  deriving DecidableEq, Repr

/-- The `struct config` of `file.h`, with the fields `file.c` uses. -/
structure config where
  conf : Option String
  pidfile : Option String
  daemon_user : Option String
  log : Option String
  host : Option String
  proxy : Option String
  port : Int
  sleep : Int
  journal_interval : Int
  verbose : Int
  loc : file_location
  scrobblers : List scrobbler_config
  deriving DecidableEq, Repr

/-- The static initial value of the global `file_config` (lines 54-60); members
without an initialiser are zero, that is `NULL`. -/
def file_config : config where
  conf := none
  pidfile := none
  daemon_user := none
  log := none
  host := none
  proxy := none
  port := -1
  sleep := -1
  journal_interval := 600
  verbose := -1
  loc := .file_unknown
  scrobblers := []

/-! ## Constants -/

def FILE_CACHE : String := "/var/cache/mpdscribble/mpdscribble.cache"
def FILE_LOG : String := "/var/log/mpdscribble/mpdscribble.log"
def FILE_HOME_CONF : String := "~/.mpdscribble/mpdscribble.conf"
def FILE_HOME_CACHE : String := "~/.mpdscribble/mpdscribble.cache"
def FILE_HOME_LOG : String := "~/.mpdscribble/mpdscribble.log"
def FILE_DEFAULT_PORT : Int := 6600
def FILE_DEFAULT_HOST : String := "localhost"
def AS_HOST : String := "http://post.audioscrobbler.com/"

/-- Modelled from the spec: the macro `PACKAGE` of `config.h`, the name of the
implicit default section.  The comment at lines 249-251 of `file.c` and the
comparison with the literal at line 200 fix it to `mpdscribble`. -/
def PACKAGE : String := "mpdscribble"

/-! ## The outside world -/

/-- What `file.c` reads from outside the program.  `FILE_CONF` is the path of
the system-wide configuration file, a macro of `config.h` set at build time. -/
structure World where
  getenv : String → Option String
  g_file_test_is_regular : String → Bool
  g_file_get_contents : String → Except String String
  g_key_file_load_from_data : String → Except String GKeyFile
  FILE_CONF : String

/-- The value of the longest run of decimal digits at the start of the text,
continuing from `acc`. -/
def atoi_digits : List Char → Nat → Nat
  | [], acc => acc
  | c :: cs, acc =>
    if 48 ≤ c.toNat ∧ c.toNat ≤ 57 then atoi_digits cs (acc * 10 + (c.toNat - 48))
    else acc

/-- The `isspace` of the "C" locale. -/
def isspace (c : Char) : Bool :=
  c.toNat = 32 || (9 ≤ c.toNat && c.toNat ≤ 13)

/-- The `atoi` of the C library: white space is skipped, an optional sign is
read, then the longest run of decimal digits; no digits give 0 and no error
is reported.  Out of the range of `int` the value follows glibc, where `atoi`
is `(int) strtol(s, NULL, 10)`: saturated to a 64-bit `long`, then truncated
to 32 bits. -/
def atoi (s : String) : Int :=
  let cs := s.data.dropWhile isspace
  let long : Int :=
    match cs with
    | '-' :: ds => max (-(2 ^ 63 : Int)) (-(atoi_digits ds 0 : Int))
    | '+' :: ds => min (2 ^ 63 - 1 : Int) (atoi_digits ds 0 : Int)
    | ds => min (2 ^ 63 - 1 : Int) (atoi_digits ds 0 : Int)
  (long + 2 ^ 31) % 2 ^ 32 - 2 ^ 31

/-! ## `file.c` -/

/-- Lines 62-65. -/
def file_exists (w : World) (filename : String) : Bool :=
  w.g_file_test_is_regular filename

/-- Lines 67-80. -/
def file_expand_tilde (w : World) (path : String) : String :=
  if path.data.head? ≠ some '~' then path
  else
    let home := match w.getenv "HOME" with
      | some home => home
      | none => "./"
    home ++ String.mk (path.data.drop 1)

/-- Lines 82-102.  The result is the returned path and the record with the
new `loc`. -/
def get_default_config_path (w : World) (cfg : config) : Option String × config :=
  let file := file_expand_tilde w FILE_HOME_CONF
  if file_exists w file then (some file, { cfg with loc := .file_home })
  else if !file_exists w w.FILE_CONF then (none, cfg)
  else (some w.FILE_CONF, { cfg with loc := .file_etc })

/-- Lines 104-124. -/
def get_default_log_path (w : World) (cfg : config) : Except String String :=
  match cfg.loc with
  | .file_home => .ok (file_expand_tilde w FILE_HOME_LOG)
  | .file_etc => .ok FILE_LOG
  | .file_unknown => .error "please specify where to put the log file\n"

/-- Lines 126-146. -/
def get_default_cache_path (w : World) (cfg : config) : Except String String :=
  match cfg.loc with
  | .file_home => .ok (file_expand_tilde w FILE_HOME_CACHE)
  | .file_etc => .ok FILE_CACHE
  | .file_unknown => .error "please specify where to put the cache file\n"

/-- Lines 148-169.  The result is the returned flag and the new `*value_r`. -/
def load_string (file : GKeyFile) (name : String) (value_r : Option String) :
    Except String (Bool × Option String) :=
  if value_r ≠ none then
    .ok (false, value_r)
  else
    match file.g_key_file_get_string PACKAGE name with
    | .error error =>
      if error.code ≠ .G_KEY_FILE_ERROR_KEY_NOT_FOUND then .error (error.message ++ "\n")
      else .ok (false, value_r)
    | .invalid _ error =>
      if error.code ≠ .G_KEY_FILE_ERROR_KEY_NOT_FOUND then .error (error.message ++ "\n")
      else .ok (false, value_r)
    | .ok value => .ok (true, some value)

/-- Lines 171-191.  The result is the returned flag and the new `*value_r`. -/
def load_integer (file : GKeyFile) (name : String) (value_r : Int) :
    Except String (Bool × Int) :=
  if value_r ≠ -1 then
    .ok (false, value_r)
  else
    match file.g_key_file_get_integer PACKAGE name with
    | .error error =>
      if error.code ≠ .G_KEY_FILE_ERROR_KEY_NOT_FOUND then .error (error.message ++ "\n")
      else .ok (false, value_r)
    | .ok value => .ok (true, value)

/-- Lines 223-230: the journal path of a section. -/
def load_scrobbler_journal (w : World) (cfg : config) (file : GKeyFile) (group : String) :
    Except String (Option String) :=
  match value_or_null (file.g_key_file_get_string group "journal") with
  | some journal => .ok (some journal)
  | none =>
    if group = "mpdscribble" then
      match value_or_null (file.g_key_file_get_string group "cache") with
      | some journal => .ok (some journal)
      | none => (get_default_cache_path w cfg).map some
    else .ok none

/-- Lines 193-233.  `.ok none` is the `return NULL` of line 205.  The gate of
line 201 passes a `NULL` error argument and sees only the returned pointer
(`value_or_null`); the reads of lines 209-221 test only the error
(`value_or_abort`), so a username that is returned together with an error
passes the gate and aborts at lines 215-217. -/
def load_scrobbler_config (w : World) (cfg : config) (file : GKeyFile) (group : String) :
    Except String (Option scrobbler_config) :=
  if group = "mpdscribble" ∧
      value_or_null (file.g_key_file_get_string group "username") = none then
    .ok none
  else do
    let url ←
      (if group = "mpdscribble" then pure AS_HOST
       else value_or_abort (file.g_key_file_get_string group "url"))
    let username ← value_or_abort (file.g_key_file_get_string group "username")
    let password ← value_or_abort (file.g_key_file_get_string group "password")
    let journal ← load_scrobbler_journal w cfg file group
    pure (some { url := some url, username := some username,
                 password := some password, journal := journal })

/-- Lines 263-274 of `load_config_file`: the scalar options. -/
def load_config_file_scalars (file : GKeyFile) (cfg : config) : Except String config := do
  let pidfile ← load_string file "pidfile" cfg.pidfile
  let daemon_user ← load_string file "daemon_user" cfg.daemon_user
  let log ← load_string file "log" cfg.log
  let host ← load_string file "host" cfg.host
  let port ← load_integer file "port" cfg.port
  let proxy ← load_string file "proxy" cfg.proxy
  let sleep ← load_integer file "sleep" cfg.sleep
  let journal_interval ← load_integer file "journal_interval" cfg.journal_interval
  let journal_interval ←
    (if !journal_interval.1 then load_integer file "cache_interval" journal_interval.2
     else pure journal_interval)
  let verbose ← load_integer file "verbose" cfg.verbose
  pure { cfg with
    pidfile := pidfile.2, daemon_user := daemon_user.2, log := log.2, host := host.2,
    port := port.2, proxy := proxy.2, sleep := sleep.2,
    journal_interval := journal_interval.2, verbose := verbose.2 }

/-- Lines 276-284 of `load_config_file`: the loop over the groups, each
scrobbler prepended to `file_config.scrobblers`. -/
def load_config_file_scrobblers (w : World) (file : GKeyFile) :
    List String → config → Except String config
  | [], cfg => .ok cfg
  | group :: groups, cfg =>
    match load_scrobbler_config w cfg file group with
    | .error msg => .error msg
    | .ok none => load_config_file_scrobblers w file groups cfg
    | .ok (some scrobbler) =>
      load_config_file_scrobblers w file groups
        { cfg with scrobblers := scrobbler :: cfg.scrobblers }

/-- Lines 263-284 of `load_config_file`: what is done with the parsed file. -/
def load_key_file (w : World) (file : GKeyFile) (cfg : config) : Except String config := do
  let cfg ← load_config_file_scalars file cfg
  load_config_file_scrobblers w file file.g_key_file_get_groups cfg

/-- Lines 235-288. -/
def load_config_file (w : World) (path : String) (cfg : config) : Except String config :=
  match w.g_file_get_contents path with
  | .error message => .error (message ++ "\n")
  | .ok data1 =>
    let data2 := "[" ++ PACKAGE ++ "]\n" ++ data1
    match w.g_key_file_load_from_data data2 with
    | .error message => .error (message ++ "\n")
    | .ok file => load_key_file w file cfg

/-- Lines 292-305 of `file_read_config`: the configuration file is located and
loaded, and the two checks are made. -/
def file_read_config_load (w : World) (cfg : config) : Except String config := do
  let cfg :=
    if cfg.conf = none then
      let r := get_default_config_path w cfg
      { r.2 with conf := r.1 }
    else cfg
  let cfg ←
    (match cfg.conf with
     | some path => load_config_file w path cfg
     | none => pure cfg)
  match cfg.conf with
  | none => .error "cannot find configuration file\n"
  | some conf =>
    if cfg.scrobblers = [] then
      .error ("No audioscrobbler host configured in " ++ conf)
    else pure cfg

/-- Lines 307-327 of `file_read_config`: the fallbacks for what is still unset. -/
def file_read_config_fallbacks (w : World) (cfg : config) : Except String config := do
  let host := if cfg.host = none then w.getenv "MPD_HOST" else cfg.host
  let host := if host = none then some FILE_DEFAULT_HOST else host
  let log ←
    (if cfg.log = none then (get_default_log_path w cfg).map some
     else pure cfg.log)
  let port :=
    if cfg.port = -1 then
      match w.getenv "MPD_PORT" with
      | some port => atoi port
      | none => cfg.port
    else cfg.port
  let port := if port = -1 then FILE_DEFAULT_PORT else port
  let proxy := if cfg.proxy = none then w.getenv "http_proxy" else cfg.proxy
  let sleep := if cfg.sleep ≤ 0 then 1 else cfg.sleep
  let verbose := if cfg.verbose = -1 then 1 else cfg.verbose
  pure { cfg with host := host, log := log, port := port, proxy := proxy,
                  sleep := sleep, verbose := verbose }

/-- Lines 290-330.  The result is the returned `int` and the final `file_config`. -/
def file_read_config (w : World) (cfg : config) : Except String (Int × config) := do
  let cfg ← file_read_config_load w cfg
  let cfg ← file_read_config_fallbacks w cfg
  pure (1, cfg)

/-! ## Properties and sample inputs -/

/-- The priority rule between the record before and after a loading step: a
scalar option that was set (not `NULL`, not `-1`) has kept its value. -/
def ScalarsKept (before after : config) : Prop :=
  (before.pidfile ≠ none → after.pidfile = before.pidfile) ∧
  (before.daemon_user ≠ none → after.daemon_user = before.daemon_user) ∧
  (before.log ≠ none → after.log = before.log) ∧
  (before.host ≠ none → after.host = before.host) ∧
  (before.proxy ≠ none → after.proxy = before.proxy) ∧
  (before.port ≠ -1 → after.port = before.port) ∧
  (before.sleep ≠ -1 → after.sleep = before.sleep) ∧
  (before.journal_interval ≠ -1 → after.journal_interval = before.journal_interval) ∧
  (before.verbose ≠ -1 → after.verbose = before.verbose)

instance (before after : config) : Decidable (ScalarsKept before after) := by
  unfold ScalarsKept
  infer_instance

/-- A world for the examples: the environment `env`, and one regular file, at
`path`, with contents `text`, which GLib parses (after the section header
that `load_config_file` prepends) to the key file with the given sections. -/
def sample_world (env : List (String × String)) (path text : String)
    (sections : List (String × List (String × String))) : World where
  getenv := fun name => env.lookup name
  g_file_test_is_regular := fun filename => filename = path
  g_file_get_contents := fun filename =>
    if filename = path then .ok text else .error "No such file or directory"
  g_key_file_load_from_data := fun data =>
    if data = "[mpdscribble]\n" ++ text then .ok (sample_key_file sections)
    else .error "Key file contains a line which is not a key-value pair, group, or comment"
  FILE_CONF := "/etc/mpdscribble.conf"

/-- The record after command-line parsing in the examples: the configuration
file, the host and the port were given as options. -/
def sample_cli_config : config :=
  { file_config with
    conf := some "/etc/mpdscribble.conf", host := some "cli.example", port := 7000,
    loc := .file_etc }

/-- A configuration file that sets the host and the port as well. -/
def sample_scalars_text : String :=
  "host=file.example\nport=6601\nsleep=5\nusername=alice\npassword=secret\n"

/-- The sections of `sample_scalars_text`. -/
def sample_scalars_sections : List (String × List (String × String)) :=
  [("mpdscribble", [("host", "file.example"), ("port", "6601"), ("sleep", "5"),
      ("username", "alice"), ("password", "secret")])]


/-- The sections of a file with `host=file.example`, `port=6601` and `sleep=soon`. -/
def sample_contract_sections : List (String × List (String × String)) :=
  [("mpdscribble", [("host", "file.example"), ("port", "6601"), ("sleep", "soon")])]

/-- A configuration file with the sections `[a]` then `[b]`, each with the
three keys a named section needs. -/
def sample_ab_text : String :=
  "[a]\nurl=http://a.example/\nusername=ann\npassword=pa\n" ++
  "[b]\nurl=http://b.example/\nusername=bob\npassword=pb\n"

/-- The sections of `sample_ab_text`, after the implicit default section. -/
def sample_ab_sections : List (String × List (String × String)) :=
  [("mpdscribble", []),
   ("a", [("url", "http://a.example/"), ("username", "ann"), ("password", "pa")]),
   ("b", [("url", "http://b.example/"), ("username", "bob"), ("password", "pb")])]

/-- The record when `load_config_file` is called after `get_default_config_path`
found the per-user configuration file of the user `alice`. -/
def sample_home_config : config :=
  { file_config with
    conf := some "/home/alice/.mpdscribble/mpdscribble.conf", loc := .file_home }

/-- A configuration file whose default section has a username, a password and
a url. -/
def sample_alice_text : String :=
  "username=alice\npassword=secret\nurl=http://elsewhere.example/\n"

/-- The sections of `sample_alice_text`. -/
def sample_alice_sections : List (String × List (String × String)) :=
  [("mpdscribble", [("username", "alice"), ("password", "secret"),
      ("url", "http://elsewhere.example/")])]

/-- A configuration file whose default section has a username with a
backslash that starts no escape sequence, a password and a journal path. -/
def sample_domain_text : String :=
  "username=DOMAIN\\alice\npassword=secret\njournal=/tmp/j\n"

/-- The sections of `sample_domain_text`. -/
def sample_domain_sections : List (String × List (String × String)) :=
  [("mpdscribble", [("username", "DOMAIN\\alice"), ("password", "secret"),
      ("journal", "/tmp/j")])]

/-- A configuration file whose section `[a]` has no password. -/
def sample_nopassword_text : String :=
  "[a]\nurl=http://a.example/\nusername=ann\n"

/-- The sections of `sample_nopassword_text`, after the implicit default section. -/
def sample_nopassword_sections : List (String × List (String × String)) :=
  [("mpdscribble", []), ("a", [("url", "http://a.example/"), ("username", "ann")])]

/-- A configuration file whose default section has the deprecated `cache` key. -/
def sample_cache_text : String :=
  "username=alice\npassword=secret\ncache=/tmp/x.journal\n"

/-- The sections of `sample_cache_text`. -/
def sample_cache_sections : List (String × List (String × String)) :=
  [("mpdscribble", [("username", "alice"), ("password", "secret"),
      ("cache", "/tmp/x.journal")])]

/-- The record `file_read_config` returns in the examples that start from the
initial record with the system-wide file `sample_alice_text`: what the
fallbacks give, with the host and the port as named. -/
def sample_final_config (host : String) (port : Int) : config :=
  { file_config with
    conf := some "/etc/mpdscribble.conf",
    log := some "/var/log/mpdscribble/mpdscribble.log",
    host := some host, port := port, sleep := 1, verbose := 1, loc := .file_etc,
    scrobblers := [{ url := some "http://post.audioscrobbler.com/",
                     username := some "alice", password := some "secret",
                     journal := some "/var/cache/mpdscribble/mpdscribble.cache" }] }

/-- A world for the examples of the default paths: the environment `env`, the
regular files `files`, and nothing to read or parse. -/
def sample_paths_world (env : List (String × String)) (files : List String) : World where
  getenv := fun name => env.lookup name
  g_file_test_is_regular := fun filename => files.contains filename
  g_file_get_contents := fun _ => .error "No such file or directory"
  g_key_file_load_from_data := fun _ => .error "Key file does not start with a group"
  FILE_CONF := "/etc/mpdscribble.conf"

/-- Lines 292-293 of `file_read_config`: the record once the configuration
path is resolved, as `file_read_config_load` computes it. -/
def resolve_config_path (w : World) (cfg : config) : config :=
  if cfg.conf = none then
    { (get_default_config_path w cfg).2 with conf := (get_default_config_path w cfg).1 }
  else cfg

/-- A configuration file that sets options but has no scrobbler. -/
def sample_notarget_text : String := "host=mpd.example\nport=6601\n"

/-- The sections of `sample_notarget_text`. -/
def sample_notarget_sections : List (String × List (String × String)) :=
  [("mpdscribble", [("host", "mpd.example"), ("port", "6601")])]

/-- A record whose scalar options are all unset: the initial record with the
journal interval at the sentinel. -/
def sample_unset_config : config :=
  { file_config with journal_interval := -1 }

/-- A configuration file with both names of the journal interval. -/
def sample_interval_text : String :=
  "journal_interval=300\ncache_interval=120\nhost=file.example\nsleep=5\n"

/-- The sections of `sample_interval_text`. -/
def sample_interval_sections : List (String × List (String × String)) :=
  [("mpdscribble", [("journal_interval", "300"), ("cache_interval", "120"),
      ("host", "file.example"), ("sleep", "5")])]

/-- The frame of the fallback steps of `file_read_config` between the record
before and after them: a host, log or proxy that is not `NULL`, a port and a
verbosity that are not `-1` are kept, an unset verbosity becomes 1, and the
configuration path and the scrobblers are as before. -/
def FallbacksFrame (before after : config) : Prop :=
  (before.host ≠ none → after.host = before.host) ∧
  (before.log ≠ none → after.log = before.log) ∧
  (before.proxy ≠ none → after.proxy = before.proxy) ∧
  (before.port ≠ -1 → after.port = before.port) ∧
  (before.verbose ≠ -1 → after.verbose = before.verbose) ∧
  (before.verbose = -1 → after.verbose = 1) ∧
  after.conf = before.conf ∧
  after.scrobblers = before.scrobblers

instance (before after : config) : Decidable (FallbacksFrame before after) := by
  unfold FallbacksFrame
  infer_instance

/-- The record after command-line parsing in the examples of the fallbacks:
every option that has a fallback was given, and the sleep time is zero. -/
def sample_full_cli_config : config :=
  { file_config with
    conf := some "/etc/mpdscribble.conf", log := some "/tmp/mpdscribble.log",
    host := some "cli.example", proxy := some "http://proxy.example:3128/",
    port := 7000, sleep := 0, verbose := 2 }

/-- An environment that sets every variable `file_read_config` reads. -/
def sample_full_env : List (String × String) :=
  [("MPD_HOST", "mpd.local"), ("MPD_PORT", "6601"), ("http_proxy", "http://other.example/")]

/-- The sections of a file whose default section has a journal key, so that
its scrobbler needs no default path. -/
def sample_journal_sections : List (String × List (String × String)) :=
  [("mpdscribble", [("username", "alice"), ("password", "secret"),
      ("journal", "/tmp/alice.journal")])]

/-- The text of `sample_journal_sections`. -/
def sample_journal_text : String :=
  "username=alice\npassword=secret\njournal=/tmp/alice.journal\n"

/-- The initial record with the configuration file given on the command
line: the path is set and the install location stays unknown. -/
def sample_given_config (path : String) : config :=
  { file_config with conf := some path }

/-! ## General lemmas -/

theorem bind_eq_ok {ε α β : Type} {x : Except ε α} {f : α → Except ε β} {b : β}
    (h : (x >>= f) = .ok b) : ∃ a, x = .ok a ∧ f a = .ok b := by
  cases x with
  | error e => simp [bind, Except.bind] at h
  | ok a => exact ⟨a, rfl, h⟩

theorem load_string_kept {file : GKeyFile} {name : String} {v : Option String}
    {r : Bool × Option String} (h : load_string file name v = .ok r) (hv : v ≠ none) :
    r.2 = v := by
  unfold load_string at h
  rw [if_pos hv] at h
  cases h
  rfl

theorem load_integer_kept {file : GKeyFile} {name : String} {v : Int}
    {r : Bool × Int} (h : load_integer file name v = .ok r) (hv : v ≠ -1) :
    r.2 = v := by
  unfold load_integer at h
  rw [if_pos hv] at h
  cases h
  rfl

/-- What a successful run of the scalar step did, option by option. -/
theorem load_config_file_scalars_ok {file : GKeyFile} {cfg cfg' : config}
    (h : load_config_file_scalars file cfg = .ok cfg') :
    ∃ pidfile daemon_user log host port proxy sleep ji1 ji2 verbose,
      load_string file "pidfile" cfg.pidfile = .ok pidfile ∧
      load_string file "daemon_user" cfg.daemon_user = .ok daemon_user ∧
      load_string file "log" cfg.log = .ok log ∧
      load_string file "host" cfg.host = .ok host ∧
      load_integer file "port" cfg.port = .ok port ∧
      load_string file "proxy" cfg.proxy = .ok proxy ∧
      load_integer file "sleep" cfg.sleep = .ok sleep ∧
      load_integer file "journal_interval" cfg.journal_interval = .ok ji1 ∧
      (if !ji1.1 then load_integer file "cache_interval" ji1.2 else pure ji1) = .ok ji2 ∧
      load_integer file "verbose" cfg.verbose = .ok verbose ∧
      cfg' = { cfg with
        pidfile := pidfile.2, daemon_user := daemon_user.2, log := log.2, host := host.2,
        port := port.2, proxy := proxy.2, sleep := sleep.2,
        journal_interval := ji2.2, verbose := verbose.2 } := by
  unfold load_config_file_scalars at h
  obtain ⟨pidfile, h1, h⟩ := bind_eq_ok h
  obtain ⟨daemon_user, h2, h⟩ := bind_eq_ok h
  obtain ⟨log, h3, h⟩ := bind_eq_ok h
  obtain ⟨host, h4, h⟩ := bind_eq_ok h
  obtain ⟨port, h5, h⟩ := bind_eq_ok h
  obtain ⟨proxy, h6, h⟩ := bind_eq_ok h
  obtain ⟨sleep, h7, h⟩ := bind_eq_ok h
  obtain ⟨ji1, h8, h⟩ := bind_eq_ok h
  obtain ⟨ji2, h9, h⟩ := bind_eq_ok h
  obtain ⟨verbose, h10, h⟩ := bind_eq_ok h
  refine ⟨pidfile, daemon_user, log, host, port, proxy, sleep, ji1, ji2, verbose,
    h1, h2, h3, h4, h5, h6, h7, h8, h9, h10, ?_⟩
  cases h
  rfl


/-- The loop over the groups changes no member of the record but `scrobblers`. -/
theorem load_config_file_scrobblers_frame {w : World} {file : GKeyFile} (groups : List String) :
    ∀ {cfg cfg' : config}, load_config_file_scrobblers w file groups cfg = .ok cfg' →
      cfg' = { cfg with scrobblers := cfg'.scrobblers } := by
  induction groups with
  | nil =>
    intro cfg cfg' h
    simp only [load_config_file_scrobblers] at h
    cases h
    rfl
  | cons group groups ih =>
    intro cfg cfg' h
    simp only [load_config_file_scrobblers] at h
    split at h
    · cases h
    · exact ih h
    · rw [ih h]

/-- A successful `load_config_file` read and parsed the file and ran the two steps. -/
theorem load_config_file_ok {w : World} {path : String} {cfg cfg' : config}
    (h : load_config_file w path cfg = .ok cfg') :
    ∃ data file cfg1,
      w.g_file_get_contents path = .ok data ∧
      w.g_key_file_load_from_data ("[" ++ PACKAGE ++ "]\n" ++ data) = .ok file ∧
      load_config_file_scalars file cfg = .ok cfg1 ∧
      load_config_file_scrobblers w file file.g_key_file_get_groups cfg1 = .ok cfg' := by
  unfold load_config_file at h
  split at h
  · cases h
  · rename_i data hdata
    simp only at h
    split at h
    · cases h
    · rename_i file hfile
      obtain ⟨cfg1, h1, h2⟩ := bind_eq_ok h
      exact ⟨data, file, cfg1, hdata, hfile, h1, h2⟩

theorem load_config_file_scalars_kept {file : GKeyFile} {cfg cfg' : config}
    (h : load_config_file_scalars file cfg = .ok cfg') : ScalarsKept cfg cfg' := by
  obtain ⟨pidfile, daemon_user, log, host, port, proxy, sleep, ji1, ji2, verbose,
    h1, h2, h3, h4, h5, h6, h7, h8, h9, h10, rfl⟩ := load_config_file_scalars_ok h
  refine ⟨load_string_kept h1, load_string_kept h2, load_string_kept h3,
    load_string_kept h4, load_string_kept h6, load_integer_kept h5,
    load_integer_kept h7, ?_, load_integer_kept h10⟩
  intro hji
  have e1 : ji1 = (false, cfg.journal_interval) := by
    unfold load_integer at h8
    rw [if_pos hji] at h8
    cases h8
    rfl
  subst e1
  simp only [Bool.not_false, if_true] at h9
  exact load_integer_kept h9 hji

/-- C1. Priority invariant: whatever the file holds, each scalar option that
`load_config_file` loads (pidfile, daemon_user, log, host, proxy with sentinel
`NULL`; port, sleep, journal_interval, verbose with sentinel `-1`) and that is
set before the scalar-loading step has the same value after it, and after the
whole of `load_config_file`. -/
theorem C1_priority_invariant (w : World) (file : GKeyFile) (path : String) (cfg : config) :
    (∀ cfg', load_config_file_scalars file cfg = .ok cfg' → ScalarsKept cfg cfg') ∧
    (∀ cfg', load_config_file w path cfg = .ok cfg' → ScalarsKept cfg cfg') := by
  refine ⟨fun cfg' h => load_config_file_scalars_kept h, fun cfg' h => ?_⟩
  obtain ⟨data, file', cfg1, -, -, hs, hl⟩ := load_config_file_ok h
  have hk := load_config_file_scalars_kept hs
  have hf := load_config_file_scrobblers_frame _ hl
  rw [hf]
  exact hk

/-- C1, at a concrete input: host and port were set on the command line and
the file sets them too; after loading they hold the command-line values, and
`sleep`, which was unset, holds the value of the file. -/
theorem C1_priority_invariant_witness :
    load_config_file
        (sample_world [] "/etc/mpdscribble.conf" sample_scalars_text sample_scalars_sections)
        "/etc/mpdscribble.conf" sample_cli_config
      = .ok { sample_cli_config with
          sleep := 5,
          scrobblers := [{ url := some "http://post.audioscrobbler.com/",
                           username := some "alice", password := some "secret",
                           journal := some "/var/cache/mpdscribble/mpdscribble.cache" }] } ∧
    ScalarsKept sample_cli_config
      { sample_cli_config with
          sleep := 5,
          scrobblers := [{ url := some "http://post.audioscrobbler.com/",
                           username := some "alice", password := some "secret",
                           journal := some "/var/cache/mpdscribble/mpdscribble.cache" }] } :=
  ⟨by rfl,
   (C1_priority_invariant
      (sample_world [] "/etc/mpdscribble.conf" sample_scalars_text sample_scalars_sections)
      (sample_key_file sample_scalars_sections) "/etc/mpdscribble.conf" sample_cli_config).2
      _ (by rfl)⟩

/-- C2. Per-field loader contract of `load_string` and `load_integer`, for
every file, key and field value: a field that is set is left as it is and the
result is false; an unset field whose key is not found stays unset and the
result is false, without error; an unset field whose key is read becomes the
value of the file and the result is true; any other failure of the read
aborts with the message of the error, also when the lookup of a string sets
such an error and returns a string all the same. -/
theorem C2_loader_contract (file : GKeyFile) (name : String) :
    (∀ v : String, load_string file name (some v) = .ok (false, some v)) ∧
    (∀ e : GError, file.g_key_file_get_string PACKAGE name = .error e →
      e.code = .G_KEY_FILE_ERROR_KEY_NOT_FOUND →
      load_string file name none = .ok (false, none)) ∧
    (∀ v : String, file.g_key_file_get_string PACKAGE name = .ok v →
      load_string file name none = .ok (true, some v)) ∧
    (∀ e : GError, file.g_key_file_get_string PACKAGE name = .error e →
      e.code ≠ .G_KEY_FILE_ERROR_KEY_NOT_FOUND →
      load_string file name none = .error (e.message ++ "\n")) ∧
    (∀ n : Int, n ≠ -1 → load_integer file name n = .ok (false, n)) ∧
    (∀ e : GError, file.g_key_file_get_integer PACKAGE name = .error e →
      e.code = .G_KEY_FILE_ERROR_KEY_NOT_FOUND →
      load_integer file name (-1) = .ok (false, -1)) ∧
    (∀ n : Int, file.g_key_file_get_integer PACKAGE name = .ok n →
      load_integer file name (-1) = .ok (true, n)) ∧
    (∀ e : GError, file.g_key_file_get_integer PACKAGE name = .error e →
      e.code ≠ .G_KEY_FILE_ERROR_KEY_NOT_FOUND →
      load_integer file name (-1) = .error (e.message ++ "\n")) ∧
    (∀ (v : String) (e : GError), file.g_key_file_get_string PACKAGE name = .invalid v e →
      e.code ≠ .G_KEY_FILE_ERROR_KEY_NOT_FOUND →
      load_string file name none = .error (e.message ++ "\n")) := by
  refine ⟨?_, ?_, ?_, ?_, ?_, ?_, ?_, ?_, ?_⟩
  · intro v
    simp [load_string]
  · intro e he hc
    simp [load_string, he, hc]
  · intro v hv
    simp [load_string, hv]
  · intro e he hc
    simp [load_string, he, hc]
  · intro n hn
    simp [load_integer, hn]
  · intro e he hc
    simp [load_integer, he, hc]
  · intro n hn
    simp [load_integer, hn]
  · intro e he hc
    simp [load_integer, he, hc]
  · intro v e he hc
    simp [load_string, he, hc]

/-- C2, at a concrete file with `host=file.example`, `port=6601` and
`sleep=soon`: the host and the port are loaded into unset fields, a set host
is kept, the absent `proxy` and `verbose` leave their fields unset, and the
`sleep` that is not a number aborts. -/
theorem C2_loader_contract_witness :
    load_string (sample_key_file sample_contract_sections) "host" none
      = .ok (true, some "file.example") ∧
    load_string (sample_key_file sample_contract_sections) "host" (some "cli.example")
      = .ok (false, some "cli.example") ∧
    load_string (sample_key_file sample_contract_sections) "proxy" none = .ok (false, none) ∧
    load_integer (sample_key_file sample_contract_sections) "port" (-1) = .ok (true, 6601) ∧
    load_integer (sample_key_file sample_contract_sections) "port" 7000 = .ok (false, 7000) ∧
    load_integer (sample_key_file sample_contract_sections) "verbose" (-1) = .ok (false, -1) ∧
    load_integer (sample_key_file sample_contract_sections) "sleep" (-1)
      = .error "Value cannot be interpreted as a number\n" :=
  ⟨(C2_loader_contract (sample_key_file sample_contract_sections) "host").2.2.1 _ (by rfl),
   (C2_loader_contract (sample_key_file sample_contract_sections) "host").1 _,
   (C2_loader_contract (sample_key_file sample_contract_sections) "proxy").2.1
     ⟨.G_KEY_FILE_ERROR_KEY_NOT_FOUND, "Key file does not have key"⟩ (by rfl) (by rfl),
   (C2_loader_contract (sample_key_file sample_contract_sections) "port").2.2.2.2.2.2.1 _
     (by rfl),
   (C2_loader_contract (sample_key_file sample_contract_sections) "port").2.2.2.2.1 _
     (by decide),
   (C2_loader_contract (sample_key_file sample_contract_sections) "verbose").2.2.2.2.2.1
     ⟨.G_KEY_FILE_ERROR_KEY_NOT_FOUND, "Key file does not have key"⟩ (by rfl) (by rfl),
   (C2_loader_contract (sample_key_file sample_contract_sections) "sleep").2.2.2.2.2.2.2.1
     ⟨.G_KEY_FILE_ERROR_INVALID_VALUE, "Value cannot be interpreted as a number"⟩
     (by rfl) (by decide)⟩

/-- The function `load_scrobbler_config` reads nothing of the record but `loc`. -/
theorem load_scrobbler_config_loc {w : World} {file : GKeyFile} {group : String}
    {c1 c2 : config} (h : c1.loc = c2.loc) :
    load_scrobbler_config w c1 file group = load_scrobbler_config w c2 file group := by
  simp only [load_scrobbler_config, load_scrobbler_journal, get_default_cache_path, h]

/-- The scalar step changes neither `conf`, nor `loc`, nor `scrobblers`. -/
theorem load_config_file_scalars_frame {file : GKeyFile} {cfg cfg' : config}
    (h : load_config_file_scalars file cfg = .ok cfg') :
    cfg'.conf = cfg.conf ∧ cfg'.loc = cfg.loc ∧ cfg'.scrobblers = cfg.scrobblers := by
  obtain ⟨_, _, _, _, _, _, _, _, _, _, -, -, -, -, -, -, -, -, -, -, rfl⟩ :=
    load_config_file_scalars_ok h
  exact ⟨rfl, rfl, rfl⟩

/-- The loop over the groups, when each group loads: the scrobblers found are
put in front of the list, the last one first. -/
theorem load_config_file_scrobblers_eq {w : World} {file : GKeyFile} (cfg0 : config)
    {groups : List String} {rs : List (Option scrobbler_config)}
    (hg : List.Forall₂ (fun g r => load_scrobbler_config w cfg0 file g = .ok r) groups rs) :
    ∀ cfg : config, cfg.loc = cfg0.loc →
      load_config_file_scrobblers w file groups cfg
        = .ok { cfg with scrobblers := rs.reduceOption.reverse ++ cfg.scrobblers } := by
  induction hg with
  | nil =>
    intro cfg _
    simp [load_config_file_scrobblers]
  | @cons g r gs rs' hgr _ ih =>
    intro cfg hloc
    rw [← load_scrobbler_config_loc hloc] at hgr
    cases r with
    | none =>
      simp only [load_config_file_scrobblers, hgr, List.reduceOption_cons_of_none]
      exact ih cfg hloc
    | some s =>
      simp only [load_config_file_scrobblers, hgr, List.reduceOption_cons_of_some,
        List.reverse_cons, List.append_assoc, List.singleton_append]
      exact ih { cfg with scrobblers := s :: cfg.scrobblers } hloc

/-- A successful loop over the groups loaded each group, and put the
scrobblers found in front of the list, the last one first. -/
theorem load_config_file_scrobblers_ok {w : World} {file : GKeyFile} (cfg0 : config)
    (groups : List String) :
    ∀ {cfg cfg' : config}, cfg.loc = cfg0.loc →
      load_config_file_scrobblers w file groups cfg = .ok cfg' →
      ∃ rs : List (Option scrobbler_config),
        List.Forall₂ (fun g r => load_scrobbler_config w cfg0 file g = .ok r) groups rs ∧
        cfg'.scrobblers = rs.reduceOption.reverse ++ cfg.scrobblers := by
  induction groups with
  | nil =>
    intro cfg cfg' _ h
    simp only [load_config_file_scrobblers] at h
    cases h
    exact ⟨[], List.Forall₂.nil, by simp⟩
  | cons g gs ih =>
    intro cfg cfg' hloc h
    simp only [load_config_file_scrobblers] at h
    split at h
    · cases h
    · rename_i hg
      rw [load_scrobbler_config_loc hloc] at hg
      obtain ⟨rs, hrs, he⟩ := ih hloc h
      exact ⟨none :: rs, List.Forall₂.cons hg hrs, by simpa using he⟩
    · rename_i s hg
      rw [load_scrobbler_config_loc hloc] at hg
      obtain ⟨rs, hrs, he⟩ :=
        ih (show ({ cfg with scrobblers := s :: cfg.scrobblers } : config).loc = cfg0.loc
          from hloc) h
      exact ⟨some s :: rs, List.Forall₂.cons hg hrs, by simpa using he⟩

/-- C3. Ordering: when the file is read and parsed, its scalar options load,
and each section in file order loads (to a scrobbler or to none),
`load_config_file` returns with the scrobblers of the sections in reverse
file order, in front of what the list held before. -/
theorem C3_target_order (w : World) (path data : String) (file : GKeyFile)
    (cfg cfg1 : config) (rs : List (Option scrobbler_config))
    (hdata : w.g_file_get_contents path = .ok data)
    (hfile : w.g_key_file_load_from_data ("[" ++ PACKAGE ++ "]\n" ++ data) = .ok file)
    (hscalars : load_config_file_scalars file cfg = .ok cfg1)
    (hgroups : List.Forall₂ (fun group r => load_scrobbler_config w cfg file group = .ok r)
      file.g_key_file_get_groups rs) :
    load_config_file w path cfg
      = .ok { cfg1 with scrobblers := rs.reduceOption.reverse ++ cfg.scrobblers } := by
  obtain ⟨-, hloc, hscr⟩ := load_config_file_scalars_frame hscalars
  have h := load_config_file_scrobblers_eq cfg hgroups cfg1 hloc
  rw [hscr] at h
  simp only [load_config_file, hdata, hfile, load_key_file, hscalars, bind, Except.bind]
  exact h

/-- C3, at a concrete file: the sections `[a]` then `[b]`, each with a url, a
username and a password, loaded into the initial record, give the scrobbler
of `b` before the scrobbler of `a`. -/
theorem C3_target_order_witness :
    load_config_file (sample_world [] "mpdscribble.conf" sample_ab_text sample_ab_sections)
        "mpdscribble.conf" file_config
      = .ok { file_config with
          scrobblers := [
            { url := some "http://b.example/", username := some "bob",
              password := some "pb", journal := none },
            { url := some "http://a.example/", username := some "ann",
              password := some "pa", journal := none }] } :=
  C3_target_order (sample_world [] "mpdscribble.conf" sample_ab_text sample_ab_sections)
    "mpdscribble.conf" sample_ab_text (sample_key_file sample_ab_sections)
    file_config file_config
    [none,
     some { url := some "http://a.example/", username := some "ann",
            password := some "pa", journal := none },
     some { url := some "http://b.example/", username := some "bob",
            password := some "pb", journal := none }]
    (by rfl) (by rfl) (by rfl)
    (List.Forall₂.cons (by rfl) (List.Forall₂.cons (by rfl)
      (List.Forall₂.cons (by rfl) List.Forall₂.nil)))

theorem value_or_abort_ok {r : StringLookup} {v : String}
    (h : value_or_abort r = .ok v) : r = .ok v := by
  cases r with
  | error e => simp [value_or_abort] at h
  | invalid a e => simp [value_or_abort] at h
  | ok a =>
    simp only [value_or_abort, Except.ok.injEq] at h
    rw [h]

/-- What a call of `load_scrobbler_config` that returned a scrobbler did. -/
theorem load_scrobbler_config_some {w : World} {cfg : config} {file : GKeyFile}
    {group : String} {t : scrobbler_config}
    (h : load_scrobbler_config w cfg file group = .ok (some t)) :
    ∃ url username password,
      (if group = "mpdscribble" then url = AS_HOST
        else file.g_key_file_get_string group "url" = .ok url) ∧
      file.g_key_file_get_string group "username" = .ok username ∧
      file.g_key_file_get_string group "password" = .ok password ∧
      load_scrobbler_journal w cfg file group = .ok t.journal ∧
      t = { url := some url, username := some username, password := some password,
            journal := t.journal } := by
  unfold load_scrobbler_config at h
  split at h
  · cases h
  · obtain ⟨url, h1, h⟩ := bind_eq_ok h
    obtain ⟨username, h2, h⟩ := bind_eq_ok h
    obtain ⟨password, h3, h⟩ := bind_eq_ok h
    obtain ⟨journal, h4, h⟩ := bind_eq_ok h
    cases h
    refine ⟨url, username, password, ?_, value_or_abort_ok h2, value_or_abort_ok h3, h4, rfl⟩
    split
    · rename_i hg
      rw [if_pos hg] at h1
      cases h1
      rfl
    · rename_i hg
      rw [if_neg hg] at h1
      exact value_or_abort_ok h1

/-- The journal path of the default section is found when the section has a
`journal` or a `cache` key, or when the install location is known. -/
theorem load_scrobbler_journal_default {w : World} {cfg : config} {file : GKeyFile}
    (h : (∃ v, file.g_key_file_get_string "mpdscribble" "journal" = .ok v) ∨
         (∃ v, file.g_key_file_get_string "mpdscribble" "cache" = .ok v) ∨
         cfg.loc ≠ .file_unknown) :
    ∃ journal, load_scrobbler_journal w cfg file "mpdscribble" = .ok (some journal) := by
  unfold load_scrobbler_journal
  cases hj : file.g_key_file_get_string "mpdscribble" "journal" with
  | ok v => exact ⟨v, by simp [value_or_null]⟩
  | invalid v e => exact ⟨v, by simp [value_or_null]⟩
  | error e =>
    cases hc : file.g_key_file_get_string "mpdscribble" "cache" with
    | ok v => exact ⟨v, by simp [value_or_null]⟩
    | invalid v e' => exact ⟨v, by simp [value_or_null]⟩
    | error e' =>
      rcases h with ⟨v, hv⟩ | ⟨v, hv⟩ | hloc
      · rw [hj] at hv
        cases hv
      · rw [hc] at hv
        cases hv
      · simp only [value_or_null, if_true, get_default_cache_path]
        cases hl : cfg.loc with
        | file_etc => exact ⟨_, rfl⟩
        | file_home => exact ⟨_, rfl⟩
        | file_unknown => exact absurd hl hloc

/-- C4, as amended.  Default-target gating: when the lookup of `username` in
the section `mpdscribble` returns `NULL`, `load_scrobbler_config` returns no
scrobbler and does not abort.  When the section has a username that is read
without error, it returns exactly one scrobbler, whose url is the built-in
address and not the `url` of the file, provided the section has a password
that is read without error and a journal path is found (a `journal` key, a
`cache` key, or a known install location); when the password is missing, or
no journal path is found, it aborts.  When the lookup of `username` returns a
string and sets an error (a value that cannot be interpreted), the gate of
line 201 is passed and the read of lines 215-217 aborts; a password read with
an error aborts as well. -/
theorem C4_default_target_gating (w : World) (cfg : config) (file : GKeyFile) :
    (∀ e, file.g_key_file_get_string "mpdscribble" "username" = .error e →
      load_scrobbler_config w cfg file "mpdscribble" = .ok none) ∧
    (∀ u p, file.g_key_file_get_string "mpdscribble" "username" = .ok u →
      file.g_key_file_get_string "mpdscribble" "password" = .ok p →
      ((∃ v, file.g_key_file_get_string "mpdscribble" "journal" = .ok v) ∨
       (∃ v, file.g_key_file_get_string "mpdscribble" "cache" = .ok v) ∨
       cfg.loc ≠ .file_unknown) →
      ∃ journal, load_scrobbler_config w cfg file "mpdscribble"
        = .ok (some { url := some "http://post.audioscrobbler.com/", username := some u,
                      password := some p, journal := some journal })) ∧
    (∀ u e, file.g_key_file_get_string "mpdscribble" "username" = .ok u →
      file.g_key_file_get_string "mpdscribble" "password" = .error e →
      load_scrobbler_config w cfg file "mpdscribble" = .error (e.message ++ "\n")) ∧
    (∀ u p e1 e2, file.g_key_file_get_string "mpdscribble" "username" = .ok u →
      file.g_key_file_get_string "mpdscribble" "password" = .ok p →
      file.g_key_file_get_string "mpdscribble" "journal" = .error e1 →
      file.g_key_file_get_string "mpdscribble" "cache" = .error e2 →
      cfg.loc = .file_unknown →
      load_scrobbler_config w cfg file "mpdscribble"
        = .error "please specify where to put the cache file\n") ∧
    (∀ v e, file.g_key_file_get_string "mpdscribble" "username" = .invalid v e →
      load_scrobbler_config w cfg file "mpdscribble" = .error (e.message ++ "\n")) ∧
    (∀ u v e, file.g_key_file_get_string "mpdscribble" "username" = .ok u →
      file.g_key_file_get_string "mpdscribble" "password" = .invalid v e →
      load_scrobbler_config w cfg file "mpdscribble" = .error (e.message ++ "\n")) := by
  refine ⟨?_, ?_, ?_, ?_, ?_, ?_⟩
  · intro e he
    simp [load_scrobbler_config, he, value_or_null]
  · intro u p hu hp hj
    obtain ⟨journal, hjournal⟩ := load_scrobbler_journal_default (w := w) hj
    refine ⟨journal, ?_⟩
    simp [load_scrobbler_config, hu, hp, hjournal, value_or_null, value_or_abort, bind,
      Except.bind, pure, Except.pure, AS_HOST]
  · intro u e hu hp
    simp [load_scrobbler_config, hu, hp, value_or_null, value_or_abort, bind,
      Except.bind, pure, Except.pure]
  · intro u p e1 e2 hu hp hj hc hloc
    simp [load_scrobbler_config, load_scrobbler_journal, get_default_cache_path, hu, hp, hj,
      hc, hloc, value_or_null, value_or_abort, bind, Except.bind, pure, Except.pure,
      Except.map]
  · intro v e hu
    simp [load_scrobbler_config, hu, value_or_null, value_or_abort, bind,
      Except.bind, pure, Except.pure]
  · intro u v e hu hp
    simp [load_scrobbler_config, hu, hp, value_or_null, value_or_abort, bind,
      Except.bind, pure, Except.pure]

/-- C4, as stated, fails: a default section with `username=alice` and nothing
else, loaded with the per-user install location, aborts for want of a
password and yields no scrobbler; a default section with a username and a
password but no journal path, loaded with the install location unknown,
aborts as well; and so does a default section with a password, a journal
path and the username `DOMAIN\alice`, which GLib returns as a string together
with an error. -/
theorem C4_default_target_counterexample :
    load_scrobbler_config
        (sample_world [("HOME", "/home/alice")] "/home/alice/.mpdscribble/mpdscribble.conf"
          "username=alice\n" [("mpdscribble", [("username", "alice")])])
        sample_home_config
        (sample_key_file [("mpdscribble", [("username", "alice")])]) "mpdscribble"
      = .error "Key file does not have key\n" ∧
    load_scrobbler_config
        (sample_world [] "my.conf" "username=alice\npassword=secret\n"
          [("mpdscribble", [("username", "alice"), ("password", "secret")])])
        { file_config with conf := some "my.conf" }
        (sample_key_file [("mpdscribble", [("username", "alice"), ("password", "secret")])])
        "mpdscribble"
      = .error "please specify where to put the cache file\n" ∧
    (sample_key_file sample_domain_sections).g_key_file_get_string "mpdscribble" "username"
      = .invalid "DOMAIN\\alice"
          ⟨.G_KEY_FILE_ERROR_INVALID_VALUE,
            "Key file contains a key which has a value that cannot be interpreted."⟩ ∧
    load_scrobbler_config
        (sample_world [("HOME", "/home/alice")] "/home/alice/.mpdscribble/mpdscribble.conf"
          sample_domain_text sample_domain_sections)
        sample_home_config (sample_key_file sample_domain_sections) "mpdscribble"
      = .error "Key file contains a key which has a value that cannot be interpreted.\n" := by
  refine ⟨?_, ?_, ?_, ?_⟩ <;> rfl

/-- C4 as amended, at concrete files: a default section without a username
gives no scrobbler; one with `username=alice`, `password=secret` and
`url=http://elsewhere.example/` gives one scrobbler with the built-in url;
one with the username `DOMAIN\alice` aborts with the message of the error. -/
theorem C4_default_target_gating_witness :
    load_scrobbler_config
        (sample_world [("HOME", "/home/alice")] "/home/alice/.mpdscribble/mpdscribble.conf"
          "host=mpd.example\n" [("mpdscribble", [("host", "mpd.example")])])
        sample_home_config
        (sample_key_file [("mpdscribble", [("host", "mpd.example")])]) "mpdscribble"
      = .ok none ∧
    (∃ journal, load_scrobbler_config
        (sample_world [("HOME", "/home/alice")] "/home/alice/.mpdscribble/mpdscribble.conf"
          sample_alice_text sample_alice_sections)
        sample_home_config (sample_key_file sample_alice_sections) "mpdscribble"
      = .ok (some { url := some "http://post.audioscrobbler.com/", username := some "alice",
                    password := some "secret", journal := some journal })) ∧
    load_scrobbler_config
        (sample_world [("HOME", "/home/alice")] "/home/alice/.mpdscribble/mpdscribble.conf"
          sample_domain_text sample_domain_sections)
        sample_home_config (sample_key_file sample_domain_sections) "mpdscribble"
      = .error "Key file contains a key which has a value that cannot be interpreted.\n" :=
  ⟨(C4_default_target_gating _ _ _).1
      ⟨.G_KEY_FILE_ERROR_KEY_NOT_FOUND, "Key file does not have key"⟩ (by rfl),
   (C4_default_target_gating _ _ _).2.1 "alice" "secret" (by rfl) (by rfl)
      (Or.inr (Or.inr (by decide))),
   (C4_default_target_gating _ _ _).2.2.2.2.1 "DOMAIN\\alice"
      ⟨.G_KEY_FILE_ERROR_INVALID_VALUE,
        "Key file contains a key which has a value that cannot be interpreted."⟩ (by rfl)⟩

/-- A group whose load aborts makes the loop over the groups abort. -/
theorem load_config_file_scrobblers_error {w : World} {file : GKeyFile} {group : String}
    (hg : ∀ cfg, ∃ msg, load_scrobbler_config w cfg file group = .error msg) :
    ∀ (groups : List String), group ∈ groups →
      ∀ cfg, ∃ msg, load_config_file_scrobblers w file groups cfg = .error msg := by
  intro groups
  induction groups with
  | nil =>
    intro hmem
    cases hmem
  | cons g gs ih =>
    intro hmem cfg
    simp only [load_config_file_scrobblers]
    by_cases hgg : group = g
    · subst hgg
      obtain ⟨msg, hmsg⟩ := hg cfg
      rw [hmsg]
      exact ⟨msg, rfl⟩
    · have hmem' : group ∈ gs := by
        rcases List.mem_cons.mp hmem with h | h
        · exact absurd h hgg
        · exact h
      split
      · exact ⟨_, rfl⟩
      · exact ih hmem' _
      · exact ih hmem' _

/-- C5. Fatal on a missing required key: for a section other than
`mpdscribble` in which the lookup of `url`, of `username` or of `password`
fails, `load_scrobbler_config` aborts whatever the record holds, and so does
`load_config_file` on every file that has the section: the caller gets no
scrobbler for the section and no partial list. -/
theorem C5_missing_key_fatal (w : World) (file : GKeyFile) (group : String)
    (hgroup : group ≠ "mpdscribble")
    (hmissing : (∃ e, file.g_key_file_get_string group "url" = .error e) ∨
      (∃ e, file.g_key_file_get_string group "username" = .error e) ∨
      (∃ e, file.g_key_file_get_string group "password" = .error e)) :
    (∀ cfg, ∃ msg, load_scrobbler_config w cfg file group = .error msg) ∧
    (∀ path data cfg, group ∈ file.g_key_file_get_groups →
      w.g_file_get_contents path = .ok data →
      w.g_key_file_load_from_data ("[" ++ PACKAGE ++ "]\n" ++ data) = .ok file →
      ∃ msg, load_config_file w path cfg = .error msg) := by
  have h1 : ∀ cfg, ∃ msg, load_scrobbler_config w cfg file group = .error msg := by
    intro cfg
    cases hres : load_scrobbler_config w cfg file group with
    | error msg => exact ⟨msg, rfl⟩
    | ok r =>
      exfalso
      cases r with
      | none =>
        unfold load_scrobbler_config at hres
        split at hres
        · rename_i hc
          exact hgroup hc.1
        · obtain ⟨_, _, h⟩ := bind_eq_ok hres
          obtain ⟨_, _, h⟩ := bind_eq_ok h
          obtain ⟨_, _, h⟩ := bind_eq_ok h
          obtain ⟨_, _, h⟩ := bind_eq_ok h
          cases h
      | some t =>
        obtain ⟨url, u, p, hurl, hu, hp, -, -⟩ := load_scrobbler_config_some hres
        rw [if_neg hgroup] at hurl
        rcases hmissing with ⟨e, he⟩ | ⟨e, he⟩ | ⟨e, he⟩
        · rw [hurl] at he
          cases he
        · rw [hu] at he
          cases he
        · rw [hp] at he
          cases he
  refine ⟨h1, ?_⟩
  intro path data cfg hmem hdata hfile
  simp only [load_config_file, hdata, hfile, load_key_file, bind, Except.bind]
  split
  · exact ⟨_, rfl⟩
  · exact load_config_file_scrobblers_error h1 _ hmem _

/-- C5, at a concrete file: the section `[a]` has a url and a username but no
password; loading it aborts, and so does loading the file. -/
theorem C5_missing_key_fatal_witness :
    (∀ cfg, ∃ msg, load_scrobbler_config
        (sample_world [] "mpdscribble.conf" sample_nopassword_text sample_nopassword_sections)
        cfg (sample_key_file sample_nopassword_sections) "a" = .error msg) ∧
    ∃ msg, load_config_file
        (sample_world [] "mpdscribble.conf" sample_nopassword_text sample_nopassword_sections)
        "mpdscribble.conf" file_config = .error msg :=
  ⟨(C5_missing_key_fatal
      (sample_world [] "mpdscribble.conf" sample_nopassword_text sample_nopassword_sections)
      (sample_key_file sample_nopassword_sections) "a" (by decide)
      (Or.inr (Or.inr ⟨⟨.G_KEY_FILE_ERROR_KEY_NOT_FOUND, "Key file does not have key"⟩,
        by rfl⟩))).1,
   (C5_missing_key_fatal
      (sample_world [] "mpdscribble.conf" sample_nopassword_text sample_nopassword_sections)
      (sample_key_file sample_nopassword_sections) "a" (by decide)
      (Or.inr (Or.inr ⟨⟨.G_KEY_FILE_ERROR_KEY_NOT_FOUND, "Key file does not have key"⟩,
        by rfl⟩))).2
      "mpdscribble.conf" sample_nopassword_text file_config (by decide) (by rfl) (by rfl)⟩

/-- Each result in a list related to the groups comes from one of the groups. -/
theorem forall₂_mem_right {α β : Type} {R : α → β → Prop} {xs : List α} {ys : List β}
    (h : List.Forall₂ R xs ys) : ∀ y ∈ ys, ∃ x ∈ xs, R x y := by
  induction h with
  | nil =>
    intro y hy
    cases hy
  | @cons a b as bs hab _ ih =>
    intro y hy
    rcases List.mem_cons.mp hy with rfl | hy'
    · exact ⟨a, List.mem_cons_self _ _, hab⟩
    · obtain ⟨x, hx, hr⟩ := ih y hy'
      exact ⟨x, List.mem_cons_of_mem _ hx, hr⟩

/-- The journal path of the default section, when one is found, is not `NULL`. -/
theorem load_scrobbler_journal_default_some {w : World} {cfg : config} {file : GKeyFile}
    {journal : Option String}
    (h : load_scrobbler_journal w cfg file "mpdscribble" = .ok journal) : journal ≠ none := by
  unfold load_scrobbler_journal at h
  split at h
  · cases h
    simp
  · rw [if_pos rfl] at h
    split at h
    · cases h
      simp
    · cases hd : get_default_cache_path w cfg with
      | error msg =>
        rw [hd] at h
        cases h
      | ok v =>
        rw [hd] at h
        cases h
        simp

/-- The journal path of a named section is its `journal` key, or `NULL`. -/
theorem load_scrobbler_journal_named {w : World} {cfg : config} {file : GKeyFile}
    {group : String} (hgroup : group ≠ "mpdscribble") :
    load_scrobbler_journal w cfg file group
      = .ok (value_or_null (file.g_key_file_get_string group "journal")) := by
  unfold load_scrobbler_journal
  split
  · rename_i journal hj
    rw [hj]
  · rename_i hj
    rw [if_neg hgroup, hj]

/-- C6, as stated, fails: the section `[a]` with a url, a username and a
password and no `journal` key gives a scrobbler whose journal path is `NULL`;
and a section whose keys have empty values gives a scrobbler whose url,
username and password are empty strings. -/
theorem C6_target_fields_counterexample :
    load_config_file
        (sample_world [] "mpdscribble.conf" "[a]\nurl=http://a.example/\nusername=ann\npassword=pa\n"
          [("mpdscribble", []),
           ("a", [("url", "http://a.example/"), ("username", "ann"), ("password", "pa")])])
        "mpdscribble.conf" file_config
      = .ok { file_config with
          scrobblers := [{ url := some "http://a.example/", username := some "ann",
                           password := some "pa", journal := none }] } ∧
    load_config_file
        (sample_world [] "mpdscribble.conf" "[a]\nurl=\nusername=\npassword=\n"
          [("mpdscribble", []), ("a", [("url", ""), ("username", ""), ("password", "")])])
        "mpdscribble.conf" file_config
      = .ok { file_config with
          scrobblers := [{ url := some "", username := some "", password := some "",
                           journal := none }] } := by
  constructor <;> rfl

/-- C6, as amended.  Target field invariant: when `load_config_file` returns,
the list of scrobblers is the old list with the new scrobblers in front, and
every new scrobbler was loaded from a section of the file and has a url, a
username and a password that are not `NULL` (they may be empty strings); the
journal path is not `NULL` for the scrobbler of the section `mpdscribble`,
and for any other section it is the `journal` key of the section, `NULL`
when the section has none. -/
theorem C6_target_fields (w : World) (path : String) (cfg cfg' : config)
    (h : load_config_file w path cfg = .ok cfg') :
    ∃ data file new,
      w.g_file_get_contents path = .ok data ∧
      w.g_key_file_load_from_data ("[" ++ PACKAGE ++ "]\n" ++ data) = .ok file ∧
      cfg'.scrobblers = new ++ cfg.scrobblers ∧
      ∀ t ∈ new, ∃ group ∈ file.g_key_file_get_groups,
        load_scrobbler_config w cfg file group = .ok (some t) ∧
        t.url ≠ none ∧ t.username ≠ none ∧ t.password ≠ none ∧
        (group = "mpdscribble" → t.journal ≠ none) ∧
        (group ≠ "mpdscribble" →
          t.journal = value_or_null (file.g_key_file_get_string group "journal")) := by
  obtain ⟨data, file, cfg1, hdata, hfile, hs, hl⟩ := load_config_file_ok h
  obtain ⟨-, hloc, hscr⟩ := load_config_file_scalars_frame hs
  obtain ⟨rs, hrs, he⟩ := load_config_file_scrobblers_ok cfg _ hloc hl
  refine ⟨data, file, rs.reduceOption.reverse, hdata, hfile, ?_, ?_⟩
  · rw [he, hscr]
  · intro t ht
    have ht' : some t ∈ rs := by
      rw [List.mem_reverse] at ht
      exact List.reduceOption_mem_iff.mp ht
    obtain ⟨group, hmem, hg⟩ := forall₂_mem_right hrs (some t) ht'
    obtain ⟨url, u, p, -, -, -, hj, ht⟩ := load_scrobbler_config_some hg
    refine ⟨group, hmem, hg, ?_, ?_, ?_, ?_, ?_⟩
    · rw [ht]
      simp
    · rw [ht]
      simp
    · rw [ht]
      simp
    · intro hd
      subst hd
      exact load_scrobbler_journal_default_some hj
    · intro hn
      rw [load_scrobbler_journal_named hn] at hj
      exact (Except.ok.inj hj).symm

/-- C6 as amended, at a concrete file: the default section of the file of
`alice` gives one scrobbler, put in front of the empty list. -/
theorem C6_target_fields_witness :
    ∃ data file new,
      (sample_world [("HOME", "/home/alice")] "/home/alice/.mpdscribble/mpdscribble.conf"
          sample_alice_text sample_alice_sections).g_file_get_contents
        "/home/alice/.mpdscribble/mpdscribble.conf" = .ok data ∧
      (sample_world [("HOME", "/home/alice")] "/home/alice/.mpdscribble/mpdscribble.conf"
          sample_alice_text sample_alice_sections).g_key_file_load_from_data
        ("[" ++ PACKAGE ++ "]\n" ++ data) = .ok file ∧
      ({ sample_home_config with
          scrobblers := [{ url := some "http://post.audioscrobbler.com/",
                           username := some "alice", password := some "secret",
                           journal := some "/home/alice/.mpdscribble/mpdscribble.cache" }] }
        : config).scrobblers = new ++ sample_home_config.scrobblers ∧
      ∀ t ∈ new, ∃ group ∈ file.g_key_file_get_groups,
        load_scrobbler_config
          (sample_world [("HOME", "/home/alice")] "/home/alice/.mpdscribble/mpdscribble.conf"
            sample_alice_text sample_alice_sections) sample_home_config file group
          = .ok (some t) ∧
        t.url ≠ none ∧ t.username ≠ none ∧ t.password ≠ none ∧
        (group = "mpdscribble" → t.journal ≠ none) ∧
        (group ≠ "mpdscribble" →
          t.journal = value_or_null (file.g_key_file_get_string group "journal")) :=
  C6_target_fields
    (sample_world [("HOME", "/home/alice")] "/home/alice/.mpdscribble/mpdscribble.conf"
      sample_alice_text sample_alice_sections)
    "/home/alice/.mpdscribble/mpdscribble.conf" sample_home_config
    { sample_home_config with
      scrobblers := [{ url := some "http://post.audioscrobbler.com/",
                       username := some "alice", password := some "secret",
                       journal := some "/home/alice/.mpdscribble/mpdscribble.cache" }] }
    (by rfl)

/-- C7. Deprecated cache key: when `load_scrobbler_config` returns a scrobbler
for the section `mpdscribble`, and the section has no `journal` key but has
`cache = v`, the journal path of the scrobbler is `v`; and when the section
has a `journal` key with value `v`, the journal path is `v` whatever the
`cache` key holds.  Both keys are read with a `NULL` error argument, so a
string that GLib returns together with an error is taken as the value too. -/
theorem C7_deprecated_cache_key (w : World) (cfg : config) (file : GKeyFile)
    (t : scrobbler_config)
    (h : load_scrobbler_config w cfg file "mpdscribble" = .ok (some t)) :
    (∀ e v, file.g_key_file_get_string "mpdscribble" "journal" = .error e →
      file.g_key_file_get_string "mpdscribble" "cache" = .ok v → t.journal = some v) ∧
    (∀ v, file.g_key_file_get_string "mpdscribble" "journal" = .ok v →
      t.journal = some v) ∧
    (∀ e v e', file.g_key_file_get_string "mpdscribble" "journal" = .error e →
      file.g_key_file_get_string "mpdscribble" "cache" = .invalid v e' →
      t.journal = some v) ∧
    (∀ v e, file.g_key_file_get_string "mpdscribble" "journal" = .invalid v e →
      t.journal = some v) := by
  obtain ⟨url, u, p, -, -, -, hj, -⟩ := load_scrobbler_config_some h
  refine ⟨?_, ?_, ?_, ?_⟩
  · intro e v he hv
    simp only [load_scrobbler_journal, he, hv, value_or_null, if_true] at hj
    exact (Except.ok.inj hj).symm
  · intro v hv
    simp only [load_scrobbler_journal, hv, value_or_null] at hj
    exact (Except.ok.inj hj).symm
  · intro e v e' he hv
    simp only [load_scrobbler_journal, he, hv, value_or_null, if_true] at hj
    exact (Except.ok.inj hj).symm
  · intro v e hv
    simp only [load_scrobbler_journal, hv, value_or_null] at hj
    exact (Except.ok.inj hj).symm

/-- C7, at a concrete file: the default section has a username, a password
and `cache=/tmp/x.journal`, and no `journal` key; the journal path of its
scrobbler is `/tmp/x.journal`. -/
theorem C7_deprecated_cache_key_witness :
    load_scrobbler_config
        (sample_world [] "my.conf" sample_cache_text sample_cache_sections)
        { file_config with conf := some "my.conf" }
        (sample_key_file sample_cache_sections) "mpdscribble"
      = .ok (some { url := some "http://post.audioscrobbler.com/", username := some "alice",
                    password := some "secret", journal := some "/tmp/x.journal" }) ∧
    ({ url := some "http://post.audioscrobbler.com/", username := some "alice",
       password := some "secret", journal := some "/tmp/x.journal" }
      : scrobbler_config).journal = some "/tmp/x.journal" :=
  ⟨by rfl,
   (C7_deprecated_cache_key
      (sample_world [] "my.conf" sample_cache_text sample_cache_sections)
      { file_config with conf := some "my.conf" }
      (sample_key_file sample_cache_sections)
      { url := some "http://post.audioscrobbler.com/", username := some "alice",
        password := some "secret", journal := some "/tmp/x.journal" }
      (by rfl)).1
      ⟨.G_KEY_FILE_ERROR_KEY_NOT_FOUND, "Key file does not have key"⟩ "/tmp/x.journal"
      (by rfl) (by rfl)⟩

/-- What a successful run of the fallback steps did, field by field. -/
theorem file_read_config_fallbacks_ok {w : World} {cfg cfg' : config}
    (h : file_read_config_fallbacks w cfg = .ok cfg') :
    cfg'.host =
      (if (if cfg.host = none then w.getenv "MPD_HOST" else cfg.host) = none
        then some FILE_DEFAULT_HOST
        else (if cfg.host = none then w.getenv "MPD_HOST" else cfg.host)) ∧
    cfg'.port =
      (if (if cfg.port = -1 then
            (match w.getenv "MPD_PORT" with
             | some port => atoi port
             | none => cfg.port)
          else cfg.port) = -1
        then FILE_DEFAULT_PORT
        else (if cfg.port = -1 then
            (match w.getenv "MPD_PORT" with
             | some port => atoi port
             | none => cfg.port)
          else cfg.port)) ∧
    (if cfg.log = none then (get_default_log_path w cfg).map some else pure cfg.log)
      = .ok cfg'.log ∧
    cfg'.proxy = (if cfg.proxy = none then w.getenv "http_proxy" else cfg.proxy) ∧
    cfg'.sleep = (if cfg.sleep ≤ 0 then 1 else cfg.sleep) ∧
    cfg'.verbose = (if cfg.verbose = -1 then 1 else cfg.verbose) ∧
    cfg'.conf = cfg.conf ∧ cfg'.scrobblers = cfg.scrobblers ∧
    cfg'.pidfile = cfg.pidfile ∧ cfg'.daemon_user = cfg.daemon_user ∧
    cfg'.journal_interval = cfg.journal_interval ∧ cfg'.loc = cfg.loc := by
  unfold file_read_config_fallbacks at h
  obtain ⟨log, hlog, h⟩ := bind_eq_ok h
  cases h
  exact ⟨rfl, rfl, hlog, rfl, rfl, rfl, rfl, rfl, rfl, rfl, rfl, rfl⟩

/-- A successful `file_read_config` loaded the file, then ran the fallbacks,
and returned 1. -/
theorem file_read_config_ok {w : World} {cfg : config} {r : Int × config}
    (h : file_read_config w cfg = .ok r) :
    ∃ loaded, file_read_config_load w cfg = .ok loaded ∧
      file_read_config_fallbacks w loaded = .ok r.2 ∧ r.1 = 1 := by
  unfold file_read_config at h
  obtain ⟨loaded, h1, h⟩ := bind_eq_ok h
  obtain ⟨final, h2, h⟩ := bind_eq_ok h
  cases h
  exact ⟨loaded, h1, h2, rfl⟩

/-- C8. The code does not do what the claim says: from the static initial
value of `file_config`, whose `journal_interval` is 600 and not the sentinel
`-1`, loading a file with `cache_interval=120` and no `journal_interval`
leaves the record as it was, the interval still 600, and so does the whole of
`file_read_config` on such a file with a default scrobbler; from a record
whose interval is `-1` the same key is loaded as 120. -/
theorem C8_cache_interval_not_loaded :
    load_config_file
        (sample_world [] "mpdscribble.conf" "cache_interval=120\n"
          [("mpdscribble", [("cache_interval", "120")])])
        "mpdscribble.conf" file_config
      = .ok file_config ∧
    file_config.journal_interval = 600 ∧
    file_read_config
        (sample_world [] "/etc/mpdscribble.conf"
          "cache_interval=120\nusername=alice\npassword=secret\n"
          [("mpdscribble", [("cache_interval", "120"), ("username", "alice"),
              ("password", "secret")])])
        file_config
      = .ok (1, sample_final_config "localhost" 6600) ∧
    (sample_final_config "localhost" 6600).journal_interval = 600 ∧
    load_config_file
        (sample_world [] "mpdscribble.conf" "cache_interval=120\n"
          [("mpdscribble", [("cache_interval", "120")])])
        "mpdscribble.conf" { file_config with journal_interval := -1 }
      = .ok { file_config with journal_interval := 120 } := by
  refine ⟨?_, ?_, ?_, ?_, ?_⟩ <;> rfl

/-- C9. Host fallback: whenever `file_read_config` returns, it has loaded the
file, and if the host was `NULL` after that, the host is the value of
`MPD_HOST` when the variable is set, and `localhost` when it is not. -/
theorem C9_host_fallback (w : World) (cfg : config) (r : Int × config)
    (h : file_read_config w cfg = .ok r) :
    ∃ loaded, file_read_config_load w cfg = .ok loaded ∧
      (loaded.host = none →
        (∀ v, w.getenv "MPD_HOST" = some v → r.2.host = some v) ∧
        (w.getenv "MPD_HOST" = none → r.2.host = some "localhost")) := by
  obtain ⟨loaded, hload, hfall, -⟩ := file_read_config_ok h
  obtain ⟨hhost, -⟩ := file_read_config_fallbacks_ok hfall
  refine ⟨loaded, hload, fun hnone => ⟨fun v hv => ?_, fun hv => ?_⟩⟩
  · rw [hhost, if_pos hnone, hv]
    simp
  · rw [hhost, if_pos hnone, hv]
    simp [FILE_DEFAULT_HOST]

/-- C9, at concrete inputs: from the initial record, with the system-wide
file of `alice`, `file_read_config` returns with the host `mpd.local` when
`MPD_HOST=mpd.local`, and with `localhost` when the variable is not set. -/
theorem C9_host_fallback_witness :
    file_read_config
        (sample_world [("MPD_HOST", "mpd.local")] "/etc/mpdscribble.conf"
          sample_alice_text sample_alice_sections) file_config
      = .ok (1, sample_final_config "mpd.local" 6600) ∧
    file_read_config
        (sample_world [] "/etc/mpdscribble.conf" sample_alice_text sample_alice_sections)
        file_config
      = .ok (1, sample_final_config "localhost" 6600) ∧
    ∃ loaded, file_read_config_load
        (sample_world [("MPD_HOST", "mpd.local")] "/etc/mpdscribble.conf"
          sample_alice_text sample_alice_sections) file_config = .ok loaded ∧
      (loaded.host = none →
        (∀ v, (sample_world [("MPD_HOST", "mpd.local")] "/etc/mpdscribble.conf"
            sample_alice_text sample_alice_sections).getenv "MPD_HOST" = some v →
          (sample_final_config "mpd.local" 6600).host = some v) ∧
        ((sample_world [("MPD_HOST", "mpd.local")] "/etc/mpdscribble.conf"
            sample_alice_text sample_alice_sections).getenv "MPD_HOST" = none →
          (sample_final_config "mpd.local" 6600).host = some "localhost")) :=
  ⟨by rfl, by rfl,
   C9_host_fallback
     (sample_world [("MPD_HOST", "mpd.local")] "/etc/mpdscribble.conf"
       sample_alice_text sample_alice_sections)
     file_config (1, sample_final_config "mpd.local" 6600) (by rfl)⟩

/-- A text that starts with a character that is neither white space, nor a
sign, nor a digit has the `atoi` value 0. -/
theorem atoi_no_digits (c : Char) (cs : List Char) (hspace : isspace c = false)
    (hminus : c ≠ '-') (hplus : c ≠ '+') (hdigit : ¬ (48 ≤ c.toNat ∧ c.toNat ≤ 57)) :
    atoi (String.mk (c :: cs)) = 0 := by
  unfold atoi
  simp only [List.dropWhile_cons, hspace]
  split
  · rename_i heq
    simp at heq
    exact absurd heq.1 hminus
  · rename_i heq
    simp at heq
    exact absurd heq.1 hplus
  · simp [atoi_digits, hdigit]

/-- C10, as stated, fails: with `MPD_PORT=abc` and no port in the file,
`file_read_config` returns with the port 0, not 6600; and with `MPD_PORT=-1`,
which is an integer, it returns with the port 6600, not -1. -/
theorem C10_port_fallback_counterexample :
    file_read_config
        (sample_world [("MPD_PORT", "abc")] "/etc/mpdscribble.conf"
          sample_alice_text sample_alice_sections) file_config
      = .ok (1, sample_final_config "localhost" 0) ∧
    file_read_config
        (sample_world [("MPD_PORT", "-1")] "/etc/mpdscribble.conf"
          sample_alice_text sample_alice_sections) file_config
      = .ok (1, sample_final_config "localhost" 6600) := by
  constructor <;> rfl

/-- C10, as amended.  Port fallback: whenever `file_read_config` returns, it
has loaded the file, and if the port was `-1` after that, the port is 6600
when `MPD_PORT` is not set, and when it is set to `v` the port is `atoi v`,
except that it is 6600 when `atoi v` is `-1`.  `atoi` reports no failure: a
text that does not start with a number has the value 0 (so `abc` gives the
port 0), and `6601` has the value 6601.  The port step never aborts: the
fallback steps return whenever the log path is set or the install location
is known, whatever `MPD_PORT` holds. -/
theorem C10_port_fallback (w : World) :
    (∀ cfg r, file_read_config w cfg = .ok r →
      ∃ loaded, file_read_config_load w cfg = .ok loaded ∧
        (loaded.port = -1 →
          (w.getenv "MPD_PORT" = none → r.2.port = 6600) ∧
          (∀ v, w.getenv "MPD_PORT" = some v → atoi v ≠ -1 → r.2.port = atoi v) ∧
          (∀ v, w.getenv "MPD_PORT" = some v → atoi v = -1 → r.2.port = 6600))) ∧
    (∀ loaded : config, loaded.log ≠ none ∨ loaded.loc ≠ .file_unknown →
      ∃ final, file_read_config_fallbacks w loaded = .ok final) ∧
    (∀ (c : Char) (cs : List Char), isspace c = false → c ≠ '-' → c ≠ '+' →
      ¬ (48 ≤ c.toNat ∧ c.toNat ≤ 57) → atoi (String.mk (c :: cs)) = 0) ∧
    atoi "abc" = 0 ∧ atoi "6601" = 6601 := by
  refine ⟨?_, ?_, atoi_no_digits, by rfl, by rfl⟩
  · intro cfg r h
    obtain ⟨loaded, hload, hfall, -⟩ := file_read_config_ok h
    obtain ⟨-, hport, -⟩ := file_read_config_fallbacks_ok hfall
    refine ⟨loaded, hload, fun hunset => ⟨fun hv => ?_, fun v hv hne => ?_, fun v hv he => ?_⟩⟩
    · rw [hport, if_pos hunset, hv]
      simp [hunset, FILE_DEFAULT_PORT]
    · rw [hport, if_pos hunset, hv]
      simp [hne]
    · rw [hport, if_pos hunset, hv]
      simp [he, FILE_DEFAULT_PORT]
  · intro loaded hlog
    unfold file_read_config_fallbacks
    by_cases hl : loaded.log = none
    · have hloc : loaded.loc ≠ .file_unknown := by
        rcases hlog with h | h
        · exact absurd hl h
        · exact h
      cases hc : loaded.loc with
      | file_etc =>
        simp [hl, get_default_log_path, hc, Except.map, bind, Except.bind, pure, Except.pure]
      | file_home =>
        simp [hl, get_default_log_path, hc, Except.map, bind, Except.bind, pure, Except.pure]
      | file_unknown => exact absurd hc hloc
    · simp [hl, bind, Except.bind, pure, Except.pure]

/-- C10 as amended, at a concrete input: from the initial record, with the
system-wide file of `alice` and `MPD_PORT=6601`, `file_read_config` returns
with the port 6601. -/
theorem C10_port_fallback_witness :
    file_read_config
        (sample_world [("MPD_PORT", "6601")] "/etc/mpdscribble.conf"
          sample_alice_text sample_alice_sections) file_config
      = .ok (1, sample_final_config "localhost" 6601) ∧
    ∃ loaded, file_read_config_load
        (sample_world [("MPD_PORT", "6601")] "/etc/mpdscribble.conf"
          sample_alice_text sample_alice_sections) file_config = .ok loaded ∧
      (loaded.port = -1 →
        ((sample_world [("MPD_PORT", "6601")] "/etc/mpdscribble.conf"
            sample_alice_text sample_alice_sections).getenv "MPD_PORT" = none →
          (sample_final_config "localhost" 6601).port = 6600) ∧
        (∀ v, (sample_world [("MPD_PORT", "6601")] "/etc/mpdscribble.conf"
            sample_alice_text sample_alice_sections).getenv "MPD_PORT" = some v →
          atoi v ≠ -1 → (sample_final_config "localhost" 6601).port = atoi v) ∧
        (∀ v, (sample_world [("MPD_PORT", "6601")] "/etc/mpdscribble.conf"
            sample_alice_text sample_alice_sections).getenv "MPD_PORT" = some v →
          atoi v = -1 → (sample_final_config "localhost" 6601).port = 6600)) :=
  ⟨by rfl,
   (C10_port_fallback
      (sample_world [("MPD_PORT", "6601")] "/etc/mpdscribble.conf"
        sample_alice_text sample_alice_sections)).1
      file_config (1, sample_final_config "localhost" 6601) (by rfl)⟩

theorem data_tilde_append (rest : String) : ("~" ++ rest).data = '~' :: rest.data := by
  simp [String.data_append]

/-- A path whose first character is `~` is `~` followed by the rest. -/
theorem eq_tilde_append_of_head {path : String} (h : path.data.head? = some '~') :
    ∃ rest : String, path = "~" ++ rest := by
  obtain ⟨cs⟩ := path
  cases cs with
  | nil => simp at h
  | cons c tl =>
    simp only [List.head?_cons, Option.some.injEq] at h
    subst h
    exact ⟨String.mk tl, by
      apply String.ext
      simp [String.data_append]⟩

/-- C11. Tilde expansion: `file_expand_tilde` returns a path that does not
start with `~` as it is; for a path `~rest` it returns the value of `HOME`
followed by `rest`, and `./` followed by `rest` when `HOME` is not set. -/
theorem C11_tilde_expansion (w : World) :
    (∀ path : String, (¬ ∃ rest : String, path = "~" ++ rest) →
      file_expand_tilde w path = path) ∧
    (∀ home rest : String, w.getenv "HOME" = some home →
      file_expand_tilde w ("~" ++ rest) = home ++ rest) ∧
    (∀ rest : String, w.getenv "HOME" = none →
      file_expand_tilde w ("~" ++ rest) = "./" ++ rest) := by
  refine ⟨?_, ?_, ?_⟩
  · intro path hno
    unfold file_expand_tilde
    rw [if_pos]
    intro hhead
    exact hno (eq_tilde_append_of_head hhead)
  · intro home rest hhome
    unfold file_expand_tilde
    rw [if_neg (by rw [data_tilde_append]; simp)]
    simp only [hhome, data_tilde_append, List.drop_succ_cons, List.drop_zero]
  · intro rest hhome
    unfold file_expand_tilde
    rw [if_neg (by rw [data_tilde_append]; simp)]
    simp only [hhome, data_tilde_append, List.drop_succ_cons, List.drop_zero]

/-- C11, at concrete inputs: with `HOME=/home/u` the path `~/.app/app.conf`
becomes `/home/u/.app/app.conf`; without `HOME` it becomes `.//.app/app.conf`;
and `/etc/app.conf` stays as it is. -/
theorem C11_tilde_expansion_witness :
    file_expand_tilde (sample_paths_world [("HOME", "/home/u")] []) ("~" ++ "/.app/app.conf")
      = "/home/u" ++ "/.app/app.conf" ∧
    file_expand_tilde (sample_paths_world [("HOME", "/home/u")] []) "~/.app/app.conf"
      = "/home/u/.app/app.conf" ∧
    file_expand_tilde (sample_paths_world [] []) ("~" ++ "/.app/app.conf")
      = "./" ++ "/.app/app.conf" ∧
    file_expand_tilde (sample_paths_world [("HOME", "/home/u")] []) "/etc/app.conf"
      = "/etc/app.conf" :=
  ⟨(C11_tilde_expansion (sample_paths_world [("HOME", "/home/u")] [])).2.1
      "/home/u" "/.app/app.conf" (by rfl),
   by rfl,
   (C11_tilde_expansion (sample_paths_world [] [])).2.2 "/.app/app.conf" (by rfl),
   (C11_tilde_expansion (sample_paths_world [("HOME", "/home/u")] [])).1 "/etc/app.conf"
      (by
        rintro ⟨rest, h⟩
        have hd := congrArg String.data h
        rw [data_tilde_append] at hd
        simp at hd)⟩

/-- C12. Default configuration path: `get_default_config_path` returns the
expanded per-user path and sets `loc` to `file_home` when that file exists,
whether or not the system-wide file exists; otherwise it returns the
system-wide path and sets `loc` to `file_etc` when that file exists;
otherwise it returns `NULL`, without error, and leaves the record as it was. -/
theorem C12_default_config_path (w : World) (cfg : config) :
    (w.g_file_test_is_regular (file_expand_tilde w "~/.mpdscribble/mpdscribble.conf") = true →
      get_default_config_path w cfg
        = (some (file_expand_tilde w "~/.mpdscribble/mpdscribble.conf"),
           { cfg with loc := .file_home })) ∧
    (w.g_file_test_is_regular (file_expand_tilde w "~/.mpdscribble/mpdscribble.conf") = false →
      w.g_file_test_is_regular w.FILE_CONF = true →
      get_default_config_path w cfg = (some w.FILE_CONF, { cfg with loc := .file_etc })) ∧
    (w.g_file_test_is_regular (file_expand_tilde w "~/.mpdscribble/mpdscribble.conf") = false →
      w.g_file_test_is_regular w.FILE_CONF = false →
      get_default_config_path w cfg = (none, cfg)) := by
  refine ⟨?_, ?_, ?_⟩
  · intro h
    have h' : w.g_file_test_is_regular (file_expand_tilde w FILE_HOME_CONF) = true := h
    simp [get_default_config_path, file_exists, h']
    rfl
  · intro h1 h2
    have h' : w.g_file_test_is_regular (file_expand_tilde w FILE_HOME_CONF) = false := h1
    simp [get_default_config_path, file_exists, h', h2]
  · intro h1 h2
    have h' : w.g_file_test_is_regular (file_expand_tilde w FILE_HOME_CONF) = false := h1
    simp [get_default_config_path, file_exists, h', h2]

/-- C12, at concrete inputs, from the initial record with `HOME=/home/u`: with
both files present the per-user path is returned with `file_home`; with only
the system-wide file, that path with `file_etc`; with neither, `NULL` and the
record unchanged. -/
theorem C12_default_config_path_witness :
    get_default_config_path
        (sample_paths_world [("HOME", "/home/u")]
          ["/home/u/.mpdscribble/mpdscribble.conf", "/etc/mpdscribble.conf"]) file_config
      = (some "/home/u/.mpdscribble/mpdscribble.conf",
         { file_config with loc := .file_home }) ∧
    get_default_config_path
        (sample_paths_world [("HOME", "/home/u")] ["/etc/mpdscribble.conf"]) file_config
      = (some "/etc/mpdscribble.conf", { file_config with loc := .file_etc }) ∧
    get_default_config_path (sample_paths_world [("HOME", "/home/u")] []) file_config
      = (none, file_config) :=
  ⟨(C12_default_config_path
      (sample_paths_world [("HOME", "/home/u")]
        ["/home/u/.mpdscribble/mpdscribble.conf", "/etc/mpdscribble.conf"])
      file_config).1 (by rfl),
   (C12_default_config_path
      (sample_paths_world [("HOME", "/home/u")] ["/etc/mpdscribble.conf"])
      file_config).2.1 (by rfl) (by rfl),
   (C12_default_config_path (sample_paths_world [("HOME", "/home/u")] [])
      file_config).2.2 (by rfl) (by rfl)⟩

/-- C13. Location-dependent defaults: `get_default_log_path` and
`get_default_cache_path` return the expanded per-user path when `loc` is
`file_home`, the system path when it is `file_etc`, and abort, returning no
path, exactly when `loc` is `file_unknown`. -/
theorem C13_location_defaults (w : World) (cfg : config) :
    (cfg.loc = .file_home →
      get_default_log_path w cfg
        = .ok (file_expand_tilde w "~/.mpdscribble/mpdscribble.log") ∧
      get_default_cache_path w cfg
        = .ok (file_expand_tilde w "~/.mpdscribble/mpdscribble.cache")) ∧
    (cfg.loc = .file_etc →
      get_default_log_path w cfg = .ok "/var/log/mpdscribble/mpdscribble.log" ∧
      get_default_cache_path w cfg = .ok "/var/cache/mpdscribble/mpdscribble.cache") ∧
    ((∃ msg, get_default_log_path w cfg = .error msg) ↔ cfg.loc = .file_unknown) ∧
    ((∃ msg, get_default_cache_path w cfg = .error msg) ↔ cfg.loc = .file_unknown) := by
  refine ⟨?_, ?_, ?_, ?_⟩
  · intro h
    simp [get_default_log_path, get_default_cache_path, h, FILE_HOME_LOG, FILE_HOME_CACHE]
  · intro h
    simp [get_default_log_path, get_default_cache_path, h, FILE_LOG, FILE_CACHE]
  · cases h : cfg.loc <;> simp [get_default_log_path, h]
  · cases h : cfg.loc <;> simp [get_default_cache_path, h]

/-- C13, at concrete inputs: the per-user paths of the user `alice`, the
system paths, and the abort from the initial record, whose `loc` is
`file_unknown`. -/
theorem C13_location_defaults_witness :
    (get_default_log_path (sample_paths_world [("HOME", "/home/alice")] []) sample_home_config
        = .ok "/home/alice/.mpdscribble/mpdscribble.log" ∧
      get_default_cache_path (sample_paths_world [("HOME", "/home/alice")] [])
          sample_home_config
        = .ok "/home/alice/.mpdscribble/mpdscribble.cache") ∧
    (get_default_log_path (sample_paths_world [] []) sample_cli_config
        = .ok "/var/log/mpdscribble/mpdscribble.log" ∧
      get_default_cache_path (sample_paths_world [] []) sample_cli_config
        = .ok "/var/cache/mpdscribble/mpdscribble.cache") ∧
    (∃ msg, get_default_log_path (sample_paths_world [] []) file_config = .error msg) ∧
    (∃ msg, get_default_cache_path (sample_paths_world [] []) file_config = .error msg) :=
  ⟨(C13_location_defaults (sample_paths_world [("HOME", "/home/alice")] [])
      sample_home_config).1 (by rfl),
   (C13_location_defaults (sample_paths_world [] []) sample_cli_config).2.1 (by rfl),
   (C13_location_defaults (sample_paths_world [] []) file_config).2.2.1.mpr (by rfl),
   (C13_location_defaults (sample_paths_world [] []) file_config).2.2.2.mpr (by rfl)⟩

/-- The function `load_config_file` changes neither `conf` nor `loc`. -/
theorem load_config_file_frame {w : World} {path : String} {cfg cfg' : config}
    (h : load_config_file w path cfg = .ok cfg') :
    cfg'.conf = cfg.conf ∧ cfg'.loc = cfg.loc := by
  obtain ⟨data, file, cfg1, -, -, hs, hl⟩ := load_config_file_ok h
  obtain ⟨hconf, hloc, -⟩ := load_config_file_scalars_frame hs
  have hf := load_config_file_scrobblers_frame _ hl
  rw [hf]
  exact ⟨hconf, hloc⟩

/-- The first block of `file_read_config`, in terms of the resolved record. -/
theorem file_read_config_load_eq (w : World) (cfg : config) :
    file_read_config_load w cfg =
      match (resolve_config_path w cfg).conf with
      | none => .error "cannot find configuration file\n"
      | some path =>
        match load_config_file w path (resolve_config_path w cfg) with
        | .error msg => .error msg
        | .ok loaded =>
          match loaded.conf with
          | none => .error "cannot find configuration file\n"
          | some conf =>
            if loaded.scrobblers = [] then
              .error ("No audioscrobbler host configured in " ++ conf)
            else .ok loaded := by
  unfold file_read_config_load
  simp only [← resolve_config_path.eq_1]
  cases hc : (resolve_config_path w cfg).conf with
  | none => simp [bind, Except.bind, pure, Except.pure, hc]
  | some path =>
    cases hl : load_config_file w path (resolve_config_path w cfg) with
    | error msg => simp [bind, Except.bind, hl]
    | ok loaded => simp [bind, Except.bind, hl, pure, Except.pure]

/-- A successful first block of `file_read_config` loaded the file at the
resolved path, and found a scrobbler. -/
theorem file_read_config_load_ok {w : World} {cfg loaded : config}
    (h : file_read_config_load w cfg = .ok loaded) :
    ∃ path, (resolve_config_path w cfg).conf = some path ∧
      load_config_file w path (resolve_config_path w cfg) = .ok loaded ∧
      loaded.conf = some path ∧ loaded.scrobblers ≠ [] := by
  rw [file_read_config_load_eq] at h
  split at h
  · cases h
  · rename_i path hpath
    split at h
    · cases h
    · rename_i loaded' hl
      have hconf := (load_config_file_frame hl).1
      rw [hpath] at hconf
      simp only [hconf] at h
      split at h
      · cases h
      · rename_i hne
        cases h
        exact ⟨path, hpath, hl, hconf, hne⟩

/-- C14. Validation: `file_read_config` aborts when no configuration path was
given and `get_default_config_path` finds none; it aborts when the file at
the resolved path loads and leaves the list of scrobblers empty; and so,
whenever it returns, the configuration path is set and the list of
scrobblers is not empty. -/
theorem C14_validation (w : World) (cfg : config) :
    (cfg.conf = none → (get_default_config_path w cfg).1 = none →
      file_read_config w cfg = .error "cannot find configuration file\n") ∧
    (∀ path loaded, (resolve_config_path w cfg).conf = some path →
      load_config_file w path (resolve_config_path w cfg) = .ok loaded →
      loaded.scrobblers = [] →
      file_read_config w cfg = .error ("No audioscrobbler host configured in " ++ path)) ∧
    (∀ r, file_read_config w cfg = .ok r → r.2.conf ≠ none ∧ r.2.scrobblers ≠ []) := by
  refine ⟨?_, ?_, ?_⟩
  · intro hconf hnone
    have hres : (resolve_config_path w cfg).conf = none := by
      simp [resolve_config_path, hconf, hnone]
    simp [file_read_config, file_read_config_load_eq, hres, bind, Except.bind]
  · intro path loaded hpath hload hempty
    have hconf := (load_config_file_frame hload).1
    rw [hpath] at hconf
    simp [file_read_config, file_read_config_load_eq, hpath, hload, hconf, hempty, bind,
      Except.bind]
  · intro r h
    obtain ⟨loaded, hload, hfall, -⟩ := file_read_config_ok h
    obtain ⟨path, -, -, hconf, hne⟩ := file_read_config_load_ok hload
    obtain ⟨-, -, -, -, -, -, hc, hs, -⟩ := file_read_config_fallbacks_ok hfall
    rw [hc, hs, hconf]
    exact ⟨by simp, hne⟩

/-- C14, at concrete inputs, from the initial record: with no configuration
file anywhere `file_read_config` aborts; with a system-wide file that has no
scrobbler it aborts; with the system-wide file of `alice` it returns, the
path set and one scrobbler in the list. -/
theorem C14_validation_witness :
    file_read_config (sample_paths_world [] []) file_config
      = .error "cannot find configuration file\n" ∧
    file_read_config
        (sample_world [] "/etc/mpdscribble.conf" sample_notarget_text sample_notarget_sections)
        file_config
      = .error ("No audioscrobbler host configured in " ++ "/etc/mpdscribble.conf") ∧
    ((sample_final_config "localhost" 6600).conf ≠ none ∧
      (sample_final_config "localhost" 6600).scrobblers ≠ []) :=
  ⟨(C14_validation (sample_paths_world [] []) file_config).1 (by rfl) (by rfl),
   (C14_validation
      (sample_world [] "/etc/mpdscribble.conf" sample_notarget_text sample_notarget_sections)
      file_config).2.1 "/etc/mpdscribble.conf"
      { file_config with
        conf := some "/etc/mpdscribble.conf", host := some "mpd.example", port := 6601,
        loc := .file_etc }
      (by rfl) (by rfl) (by rfl),
   (C14_validation
      (sample_world [] "/etc/mpdscribble.conf" sample_alice_text sample_alice_sections)
      file_config).2.2 (1, sample_final_config "localhost" 6600) (by rfl)⟩

/-- Loading a string into the field it was loaded into gives the same field. -/
theorem load_string_again {file : GKeyFile} {name : String} {v : Option String}
    {r : Bool × Option String} (h : load_string file name v = .ok r) :
    ∃ b, load_string file name r.2 = .ok (b, r.2) := by
  by_cases hv : r.2 = v
  · rw [hv]
    exact ⟨r.1, by rw [h, ← hv]⟩
  · have hset : r.2 ≠ none := by
      intro hnone
      by_cases hvn : v = none
      · exact hv (hnone.trans hvn.symm)
      · exact hv (load_string_kept h hvn)
    exact ⟨false, by simp [load_string, hset]⟩

/-- Loading an integer into the field it was loaded into gives the same field. -/
theorem load_integer_again {file : GKeyFile} {name : String} {v : Int}
    {r : Bool × Int} (h : load_integer file name v = .ok r) :
    ∃ b, load_integer file name r.2 = .ok (b, r.2) := by
  by_cases hv : r.2 = v
  · rw [hv]
    exact ⟨r.1, by rw [h, ← hv]⟩
  · have hset : r.2 ≠ -1 := by
      intro hnone
      by_cases hvn : v = -1
      · exact hv (hnone.trans hvn.symm)
      · exact hv (load_integer_kept h hvn)
    exact ⟨false, by simp [load_integer, hset]⟩

/-- The two loads of the journal interval (lines 270-273), run on the value
they produced, produce it again. -/
theorem load_journal_interval_again {file : GKeyFile} {v : Int} {r1 r2 : Bool × Int}
    (h1 : load_integer file "journal_interval" v = .ok r1)
    (h2 : (if !r1.1 then load_integer file "cache_interval" r1.2 else pure r1) = .ok r2) :
    ∃ s1 s2, load_integer file "journal_interval" r2.2 = .ok s1 ∧
      (if !s1.1 then load_integer file "cache_interval" s1.2 else pure s1) = .ok s2 ∧
      s2.2 = r2.2 := by
  by_cases hv : r2.2 = v
  · rw [hv]
    exact ⟨r1, r2, h1, h2, hv⟩
  · have hset : r2.2 ≠ -1 := by
      intro hnone
      by_cases hvn : v = -1
      · exact hv (hnone.trans hvn.symm)
      · have e1 : r1 = (false, v) := by
          unfold load_integer at h1
          rw [if_pos hvn] at h1
          cases h1
          rfl
        subst e1
        simp only [Bool.not_false, if_true] at h2
        exact hv (load_integer_kept h2 hvn)
    refine ⟨(false, r2.2), (false, r2.2), ?_, ?_, rfl⟩
    · simp [load_integer, hset]
    · simp [load_integer, hset]

/-- C15. Idempotence of scalar loading: when the scalar-loading step of
`load_config_file` returns, running it again on the record it returned, with
the same file, returns that record again; in particular this holds from a
record whose scalar options are all unset. -/
theorem C15_scalars_idempotent (file : GKeyFile) (cfg cfg1 : config)
    (h : load_config_file_scalars file cfg = .ok cfg1) :
    load_config_file_scalars file cfg1 = .ok cfg1 := by
  obtain ⟨pidfile, daemon_user, log, host, port, proxy, sleep, ji1, ji2, verbose,
    h1, h2, h3, h4, h5, h6, h7, h8, h9, h10, rfl⟩ := load_config_file_scalars_ok h
  obtain ⟨b1, e1⟩ := load_string_again h1
  obtain ⟨b2, e2⟩ := load_string_again h2
  obtain ⟨b3, e3⟩ := load_string_again h3
  obtain ⟨b4, e4⟩ := load_string_again h4
  obtain ⟨b5, e5⟩ := load_integer_again h5
  obtain ⟨b6, e6⟩ := load_string_again h6
  obtain ⟨b7, e7⟩ := load_integer_again h7
  obtain ⟨s1, s2, e8, e9, e9'⟩ := load_journal_interval_again h8 h9
  obtain ⟨b10, e10⟩ := load_integer_again h10
  simp only [pure, Except.pure] at e9
  simp only [load_config_file_scalars, e1, e2, e3, e4, e5, e6, e7, e8, e9, e10, bind,
    Except.bind, pure, Except.pure, e9']

/-- C15, at a concrete input: from the record with every scalar option unset,
the file with a host, a sleep time and both interval keys loads to a record
that a second run of the step returns unchanged. -/
theorem C15_scalars_idempotent_witness :
    load_config_file_scalars (sample_key_file sample_interval_sections) sample_unset_config
      = .ok { sample_unset_config with
          host := some "file.example", sleep := 5, journal_interval := 300 } ∧
    load_config_file_scalars (sample_key_file sample_interval_sections)
        { sample_unset_config with
          host := some "file.example", sleep := 5, journal_interval := 300 }
      = .ok { sample_unset_config with
          host := some "file.example", sleep := 5, journal_interval := 300 } :=
  ⟨by rfl,
   C15_scalars_idempotent (sample_key_file sample_interval_sections) sample_unset_config
     { sample_unset_config with
       host := some "file.example", sleep := 5, journal_interval := 300 }
     (by rfl)⟩

/-- C16, as stated, fails: with the system-wide install location, where the
default journal path is `/var/cache/mpdscribble/mpdscribble.cache`, the
section `[a]` without a `journal` key gives a scrobbler whose journal path is
`NULL`, not the default path. -/
theorem C16_journal_fallback_counterexample :
    load_scrobbler_config
        (sample_world [] "/etc/mpdscribble.conf" sample_ab_text sample_ab_sections)
        sample_cli_config (sample_key_file sample_ab_sections) "a"
      = .ok (some { url := some "http://a.example/", username := some "ann",
                    password := some "pa", journal := none }) ∧
    get_default_cache_path
        (sample_world [] "/etc/mpdscribble.conf" sample_ab_text sample_ab_sections)
        sample_cli_config
      = .ok "/var/cache/mpdscribble/mpdscribble.cache" := by
  constructor <;> rfl

/-- C16, as amended.  Journal path fallback chain: for a scrobbler that
`load_scrobbler_config` returns for a section, the journal path is the value
of the `journal` key of the section when it has one; otherwise, for the
section `mpdscribble` only, the value of its `cache` key when it has one,
and otherwise the default path that `get_default_cache_path` computes; for
any other section without a `journal` key the journal path is `NULL`.  Both
keys are read with a `NULL` error argument, so a string that GLib returns
together with an error is taken as the value too. -/
theorem C16_journal_fallback (w : World) (cfg : config) (file : GKeyFile) (group : String)
    (t : scrobbler_config)
    (h : load_scrobbler_config w cfg file group = .ok (some t)) :
    (∀ v, file.g_key_file_get_string group "journal" = .ok v → t.journal = some v) ∧
    (∀ e v, group = "mpdscribble" → file.g_key_file_get_string group "journal" = .error e →
      file.g_key_file_get_string group "cache" = .ok v → t.journal = some v) ∧
    (∀ e1 e2, group = "mpdscribble" →
      file.g_key_file_get_string group "journal" = .error e1 →
      file.g_key_file_get_string group "cache" = .error e2 →
      ∃ path, get_default_cache_path w cfg = .ok path ∧ t.journal = some path) ∧
    (∀ e, group ≠ "mpdscribble" → file.g_key_file_get_string group "journal" = .error e →
      t.journal = none) ∧
    (∀ v e, file.g_key_file_get_string group "journal" = .invalid v e →
      t.journal = some v) ∧
    (∀ e v e', group = "mpdscribble" →
      file.g_key_file_get_string group "journal" = .error e →
      file.g_key_file_get_string group "cache" = .invalid v e' → t.journal = some v) := by
  obtain ⟨url, u, p, -, -, -, hj, -⟩ := load_scrobbler_config_some h
  refine ⟨?_, ?_, ?_, ?_, ?_, ?_⟩
  · intro v hv
    simp only [load_scrobbler_journal, hv, value_or_null] at hj
    exact (Except.ok.inj hj).symm
  · intro e v hg he hv
    subst hg
    simp only [load_scrobbler_journal, he, hv, value_or_null, if_true] at hj
    exact (Except.ok.inj hj).symm
  · intro e1 e2 hg he1 he2
    subst hg
    simp only [load_scrobbler_journal, he1, he2, value_or_null, if_true] at hj
    cases hd : get_default_cache_path w cfg with
    | error msg =>
      rw [hd] at hj
      cases hj
    | ok path =>
      rw [hd] at hj
      exact ⟨path, rfl, (Except.ok.inj hj).symm⟩
  · intro e hg he
    simp only [load_scrobbler_journal, he, value_or_null, hg, if_false] at hj
    exact (Except.ok.inj hj).symm
  · intro v e hv
    simp only [load_scrobbler_journal, hv, value_or_null] at hj
    exact (Except.ok.inj hj).symm
  · intro e v e' hg he hv
    subst hg
    simp only [load_scrobbler_journal, he, hv, value_or_null, if_true] at hj
    exact (Except.ok.inj hj).symm

/-- C16 as amended, at a concrete input: the default section of the file of
`alice` has neither a `journal` nor a `cache` key, and with the per-user
install location its scrobbler gets the default journal path. -/
theorem C16_journal_fallback_witness :
    ∃ path,
      get_default_cache_path
          (sample_world [("HOME", "/home/alice")] "/home/alice/.mpdscribble/mpdscribble.conf"
            sample_alice_text sample_alice_sections) sample_home_config = .ok path ∧
      ({ url := some "http://post.audioscrobbler.com/", username := some "alice",
         password := some "secret",
         journal := some "/home/alice/.mpdscribble/mpdscribble.cache" }
        : scrobbler_config).journal = some path :=
  (C16_journal_fallback
      (sample_world [("HOME", "/home/alice")] "/home/alice/.mpdscribble/mpdscribble.conf"
        sample_alice_text sample_alice_sections)
      sample_home_config (sample_key_file sample_alice_sections) "mpdscribble"
      { url := some "http://post.audioscrobbler.com/", username := some "alice",
        password := some "secret",
        journal := some "/home/alice/.mpdscribble/mpdscribble.cache" }
      (by rfl)).2.2.1
    ⟨.G_KEY_FILE_ERROR_KEY_NOT_FOUND, "Key file does not have key"⟩
    ⟨.G_KEY_FILE_ERROR_KEY_NOT_FOUND, "Key file does not have key"⟩
    rfl (by rfl) (by rfl)

/-- C17. Alias precedence: when the journal interval is `-1` before the
scalar-loading step and the step returns, the interval is the value of the
key `journal_interval` when the file has it, whatever `cache_interval` holds;
it is the value of `cache_interval` only when the lookup of
`journal_interval` fails; and it stays `-1` when both lookups fail. -/
theorem C17_alias_precedence (file : GKeyFile) (cfg cfg' : config)
    (hunset : cfg.journal_interval = -1)
    (h : load_config_file_scalars file cfg = .ok cfg') :
    (∀ v, file.g_key_file_get_integer PACKAGE "journal_interval" = .ok v →
      cfg'.journal_interval = v) ∧
    (∀ e c, file.g_key_file_get_integer PACKAGE "journal_interval" = .error e →
      file.g_key_file_get_integer PACKAGE "cache_interval" = .ok c →
      cfg'.journal_interval = c) ∧
    (∀ e1 e2, file.g_key_file_get_integer PACKAGE "journal_interval" = .error e1 →
      file.g_key_file_get_integer PACKAGE "cache_interval" = .error e2 →
      cfg'.journal_interval = -1) := by
  obtain ⟨pidfile, daemon_user, log, host, port, proxy, sleep, ji1, ji2, verbose,
    -, -, -, -, -, -, -, h8, h9, -, rfl⟩ := load_config_file_scalars_ok h
  rw [hunset] at h8
  refine ⟨?_, ?_, ?_⟩
  · intro v hv
    simp only [load_integer, hv] at h8
    simp only [ne_eq, not_true_eq_false, if_false] at h8
    cases h8
    simp only [Bool.not_true, Bool.false_eq_true, if_false, pure, Except.pure] at h9
    cases h9
    rfl
  · intro e c he hc
    simp only [load_integer, he, ne_eq, not_true_eq_false, if_false] at h8
    split at h8
    · cases h8
    · cases h8
      simp only [Bool.not_false, if_true, load_integer, hc, ne_eq, not_true_eq_false,
        if_false] at h9
      cases h9
      rfl
  · intro e1 e2 he1 he2
    simp only [load_integer, he1, ne_eq, not_true_eq_false, if_false] at h8
    split at h8
    · cases h8
    · cases h8
      simp only [Bool.not_false, if_true, load_integer, he2, ne_eq, not_true_eq_false,
        if_false] at h9
      split at h9
      · cases h9
      · cases h9
        rfl

/-- C17, at a concrete input: from the record with every scalar option unset,
the file with `journal_interval=300` and `cache_interval=120` loads the
interval 300. -/
theorem C17_alias_precedence_witness :
    ({ sample_unset_config with
        host := some "file.example", sleep := 5, journal_interval := 300 }
      : config).journal_interval = 300 :=
  (C17_alias_precedence (sample_key_file sample_interval_sections) sample_unset_config
      { sample_unset_config with
        host := some "file.example", sleep := 5, journal_interval := 300 }
      (by rfl) (by rfl)).1 300 (by rfl)

/-- C18. Sleep clamp: whenever `file_read_config` returns, it has loaded the
file, and the sleep time is at least 1: it is the value held after loading
when that value is positive, and 1 when that value is `-1`, zero or negative. -/
theorem C18_sleep_clamp (w : World) (cfg : config) (r : Int × config)
    (h : file_read_config w cfg = .ok r) :
    ∃ loaded, file_read_config_load w cfg = .ok loaded ∧
      1 ≤ r.2.sleep ∧
      (0 < loaded.sleep → r.2.sleep = loaded.sleep) ∧
      (loaded.sleep ≤ 0 → r.2.sleep = 1) ∧
      (loaded.sleep = -1 → r.2.sleep = 1) := by
  obtain ⟨loaded, hload, hfall, -⟩ := file_read_config_ok h
  obtain ⟨-, -, -, -, hsleep, -⟩ := file_read_config_fallbacks_ok hfall
  refine ⟨loaded, hload, ?_, ?_, ?_, ?_⟩
  · rw [hsleep]
    split <;> omega
  · intro hpos
    rw [hsleep, if_neg (by omega)]
  · intro hle
    rw [hsleep, if_pos hle]
  · intro hunset
    rw [hsleep, if_pos (by omega)]

/-- C18, at a concrete input: the command line gave the sleep time 0 and the
file does not set it; `file_read_config` returns with the sleep time 1. -/
theorem C18_sleep_clamp_witness :
    ∃ loaded, file_read_config_load
        (sample_world sample_full_env "/etc/mpdscribble.conf"
          sample_journal_text sample_journal_sections) sample_full_cli_config = .ok loaded ∧
      1 ≤ ({ sample_full_cli_config with
              sleep := 1,
              scrobblers := [{ url := some "http://post.audioscrobbler.com/",
                               username := some "alice", password := some "secret",
                               journal := some "/tmp/alice.journal" }] } : config).sleep ∧
      (0 < loaded.sleep →
        ({ sample_full_cli_config with
            sleep := 1,
            scrobblers := [{ url := some "http://post.audioscrobbler.com/",
                             username := some "alice", password := some "secret",
                             journal := some "/tmp/alice.journal" }] } : config).sleep
          = loaded.sleep) ∧
      (loaded.sleep ≤ 0 →
        ({ sample_full_cli_config with
            sleep := 1,
            scrobblers := [{ url := some "http://post.audioscrobbler.com/",
                             username := some "alice", password := some "secret",
                             journal := some "/tmp/alice.journal" }] } : config).sleep = 1) ∧
      (loaded.sleep = -1 →
        ({ sample_full_cli_config with
            sleep := 1,
            scrobblers := [{ url := some "http://post.audioscrobbler.com/",
                             username := some "alice", password := some "secret",
                             journal := some "/tmp/alice.journal" }] } : config).sleep = 1) :=
  C18_sleep_clamp
    (sample_world sample_full_env "/etc/mpdscribble.conf"
      sample_journal_text sample_journal_sections)
    sample_full_cli_config
    (1, { sample_full_cli_config with
          sleep := 1,
          scrobblers := [{ url := some "http://post.audioscrobbler.com/",
                           username := some "alice", password := some "secret",
                           journal := some "/tmp/alice.journal" }] })
    (by rfl)

theorem file_read_config_fallbacks_frame {w : World} {cfg cfg' : config}
    (h : file_read_config_fallbacks w cfg = .ok cfg') : FallbacksFrame cfg cfg' := by
  obtain ⟨hhost, hport, hlog, hproxy, -, hverbose, hconf, hscr, -⟩ :=
    file_read_config_fallbacks_ok h
  refine ⟨?_, ?_, ?_, ?_, ?_, ?_, hconf, hscr⟩
  · intro hset
    rw [hhost]
    simp [hset]
  · intro hset
    rw [if_neg hset] at hlog
    exact (Except.ok.inj hlog).symm
  · intro hset
    rw [hproxy, if_neg hset]
  · intro hset
    rw [hport]
    simp [hset]
  · intro hset
    rw [hverbose, if_neg hset]
  · intro hunset
    rw [hverbose, if_pos hunset]

/-- C19. Finalizer frame: the fallback steps of `file_read_config`, in every
world and so whatever `MPD_HOST`, `MPD_PORT` and `http_proxy` hold, keep a
host, log or proxy that is not `NULL` and a port or verbosity that is not
`-1`, make an unset verbosity 1, and leave the configuration path and the
list of scrobblers as they were; this holds for the steps on any record, and
in `file_read_config` between the record after file loading and the result. -/
theorem C19_finalizer_frame (w : World) :
    (∀ cfg cfg', file_read_config_fallbacks w cfg = .ok cfg' → FallbacksFrame cfg cfg') ∧
    (∀ cfg r, file_read_config w cfg = .ok r →
      ∃ loaded, file_read_config_load w cfg = .ok loaded ∧ FallbacksFrame loaded r.2) := by
  refine ⟨fun cfg cfg' h => file_read_config_fallbacks_frame h, fun cfg r h => ?_⟩
  obtain ⟨loaded, hload, hfall, -⟩ := file_read_config_ok h
  exact ⟨loaded, hload, file_read_config_fallbacks_frame hfall⟩

/-- C19, at a concrete input: the command line gave the host, the log, the
proxy, the port and the verbosity, and the environment sets `MPD_HOST`,
`MPD_PORT` and `http_proxy`; the fallback steps change only the sleep time. -/
theorem C19_finalizer_frame_witness :
    file_read_config_fallbacks
        (sample_world sample_full_env "/etc/mpdscribble.conf"
          sample_journal_text sample_journal_sections) sample_full_cli_config
      = .ok { sample_full_cli_config with sleep := 1 } ∧
    FallbacksFrame sample_full_cli_config { sample_full_cli_config with sleep := 1 } :=
  ⟨by rfl,
   (C19_finalizer_frame
      (sample_world sample_full_env "/etc/mpdscribble.conf"
        sample_journal_text sample_journal_sections)).1
      sample_full_cli_config { sample_full_cli_config with sleep := 1 } (by rfl)⟩

/-- A group whose load aborts for one install location makes the loop over
the groups abort from every record with that location. -/
theorem load_config_file_scrobblers_error_loc {w : World} {file : GKeyFile} {group : String}
    (cfg0 : config) (hg : ∃ msg, load_scrobbler_config w cfg0 file group = .error msg) :
    ∀ (groups : List String), group ∈ groups →
      ∀ cfg : config, cfg.loc = cfg0.loc →
        ∃ msg, load_config_file_scrobblers w file groups cfg = .error msg := by
  intro groups
  induction groups with
  | nil =>
    intro hmem
    cases hmem
  | cons g gs ih =>
    intro hmem cfg hloc
    simp only [load_config_file_scrobblers]
    by_cases hgg : group = g
    · subst hgg
      obtain ⟨msg, hmsg⟩ := hg
      rw [load_scrobbler_config_loc hloc, hmsg]
      exact ⟨msg, rfl⟩
    · have hmem' : group ∈ gs := by
        rcases List.mem_cons.mp hmem with h | h
        · exact absurd h hgg
        · exact h
      split
      · exact ⟨_, rfl⟩
      · exact ih hmem' _ hloc
      · exact ih hmem' _ hloc

/-- A record whose configuration path is set is its own resolved record. -/
theorem resolve_config_path_set {w : World} {cfg : config} {path : String}
    (hconf : cfg.conf = some path) : resolve_config_path w cfg = cfg := by
  simp [resolve_config_path, hconf]

/-- C20. When the configuration path is set on entry to `file_read_config`
and `loc` is `file_unknown`, `loc` is still `file_unknown` after file
loading.  Hence, when the log is unset on entry and the file has no `log`
key, `file_read_config` aborts, and when the file loaded and gave a scrobbler
the abort is the one of `get_default_log_path`; likewise, when the section
`mpdscribble` has a username but neither a `journal` nor a `cache` key,
`load_config_file` aborts, and `file_read_config` with it. -/
theorem C20_unknown_location (w : World) (cfg : config) (path : String)
    (hconf : cfg.conf = some path) (hloc : cfg.loc = .file_unknown) :
    (∀ loaded, file_read_config_load w cfg = .ok loaded → loaded.loc = .file_unknown) ∧
    (∀ data file e, w.g_file_get_contents path = .ok data →
      w.g_key_file_load_from_data ("[" ++ PACKAGE ++ "]\n" ++ data) = .ok file →
      cfg.log = none → file.g_key_file_get_string PACKAGE "log" = .error e →
      (∃ msg, file_read_config w cfg = .error msg) ∧
      (∀ loaded, file_read_config_load w cfg = .ok loaded →
        file_read_config w cfg = .error "please specify where to put the log file\n")) ∧
    (∀ data file u e1 e2, w.g_file_get_contents path = .ok data →
      w.g_key_file_load_from_data ("[" ++ PACKAGE ++ "]\n" ++ data) = .ok file →
      "mpdscribble" ∈ file.g_key_file_get_groups →
      file.g_key_file_get_string "mpdscribble" "username" = .ok u →
      file.g_key_file_get_string "mpdscribble" "journal" = .error e1 →
      file.g_key_file_get_string "mpdscribble" "cache" = .error e2 →
      (∃ msg, load_config_file w path cfg = .error msg) ∧
      (∃ msg, file_read_config w cfg = .error msg)) := by
  have hres := resolve_config_path_set (w := w) hconf
  have hloaded : ∀ loaded, file_read_config_load w cfg = .ok loaded →
      load_config_file w path cfg = .ok loaded := by
    intro loaded h
    obtain ⟨path', hp, hl, -, -⟩ := file_read_config_load_ok h
    rw [hres] at hp hl
    rw [hconf] at hp
    cases hp
    exact hl
  refine ⟨?_, ?_, ?_⟩
  · intro loaded h
    rw [(load_config_file_frame (hloaded loaded h)).2, hloc]
  · intro data file e hdata hfile hlog he
    have hstep : ∀ loaded, file_read_config_load w cfg = .ok loaded →
        file_read_config w cfg = .error "please specify where to put the log file\n" := by
      intro loaded h
      have hl := hloaded loaded h
      obtain ⟨data', file', cfg1, hdata', hfile', hs, hsc⟩ := load_config_file_ok hl
      rw [hdata] at hdata'
      cases hdata'
      rw [hfile] at hfile'
      cases hfile'
      obtain ⟨pidfile, daemon_user, log, host, port, proxy, sleep, ji1, ji2, verbose,
        -, -, h3, -, -, -, -, -, -, -, rfl⟩ := load_config_file_scalars_ok hs
      have hlog2 : log.2 = none := by
        rw [hlog] at h3
        simp only [load_string, he, ne_eq, not_true_eq_false, if_false] at h3
        split at h3
        · cases h3
        · cases h3
          rfl
      have hf := load_config_file_scrobblers_frame _ hsc
      have hloadedlog : loaded.log = none := by
        rw [hf]
        exact hlog2
      have hloadedloc : loaded.loc = .file_unknown := by
        rw [hf]
        exact hloc
      simp [file_read_config, h, file_read_config_fallbacks, hloadedlog, hloadedloc,
        get_default_log_path, bind, Except.bind, Except.map]
    refine ⟨?_, hstep⟩
    cases h : file_read_config_load w cfg with
    | error msg => exact ⟨msg, by simp [file_read_config, h, bind, Except.bind]⟩
    | ok loaded => exact ⟨_, hstep loaded h⟩
  · intro data file u e1 e2 hdata hfile hmem hu hj hc
    have hgroup : ∃ msg, load_scrobbler_config w cfg file "mpdscribble" = .error msg := by
      cases hp : file.g_key_file_get_string "mpdscribble" "password" with
      | error e =>
        exact ⟨_, by
          simp [load_scrobbler_config, hu, hp, value_or_null, value_or_abort, bind,
            Except.bind, pure, Except.pure]
          rfl⟩
      | invalid v e =>
        exact ⟨_, by
          simp [load_scrobbler_config, hu, hp, value_or_null, value_or_abort, bind,
            Except.bind, pure, Except.pure]
          rfl⟩
      | ok p =>
        exact ⟨_, by
          simp [load_scrobbler_config, load_scrobbler_journal, get_default_cache_path, hu,
            hp, hj, hc, hloc, value_or_null, value_or_abort, bind, Except.bind, pure,
            Except.pure, Except.map]
          rfl⟩
    have hload : ∃ msg, load_config_file w path cfg = .error msg := by
      simp only [load_config_file, hdata, hfile, load_key_file, bind, Except.bind]
      split
      · exact ⟨_, rfl⟩
      · rename_i cfg1 hs
        exact load_config_file_scrobblers_error_loc cfg hgroup _ hmem cfg1
          (load_config_file_scalars_frame hs).2.1
    refine ⟨hload, ?_⟩
    obtain ⟨msg, hmsg⟩ := hload
    exact ⟨msg, by
      simp [file_read_config, file_read_config_load_eq, hres, hconf, hmsg, bind,
        Except.bind]⟩

/-- C20, at concrete inputs, with the configuration file given on the command
line: the file with the sections `[a]` and `[b]` loads and gives two
scrobblers, and `file_read_config` aborts for want of a log path; the file of
`alice`, whose default section has a username and no journal path, makes
`load_config_file` and `file_read_config` abort. -/
theorem C20_unknown_location_witness :
    file_read_config (sample_world [] "mpdscribble.conf" sample_ab_text sample_ab_sections)
        (sample_given_config "mpdscribble.conf")
      = .error "please specify where to put the log file\n" ∧
    (∃ msg, load_config_file
        (sample_world [] "my.conf" sample_alice_text sample_alice_sections)
        "my.conf" (sample_given_config "my.conf") = .error msg) ∧
    (∃ msg, file_read_config
        (sample_world [] "my.conf" sample_alice_text sample_alice_sections)
        (sample_given_config "my.conf") = .error msg) :=
  ⟨((C20_unknown_location
      (sample_world [] "mpdscribble.conf" sample_ab_text sample_ab_sections)
      (sample_given_config "mpdscribble.conf") "mpdscribble.conf" (by rfl) (by rfl)).2.1
      sample_ab_text (sample_key_file sample_ab_sections)
      ⟨.G_KEY_FILE_ERROR_KEY_NOT_FOUND, "Key file does not have key"⟩
      (by rfl) (by rfl) (by rfl) (by rfl)).2
      { sample_given_config "mpdscribble.conf" with
        scrobblers := [
          { url := some "http://b.example/", username := some "bob",
            password := some "pb", journal := none },
          { url := some "http://a.example/", username := some "ann",
            password := some "pa", journal := none }] }
      (by rfl),
   ((C20_unknown_location
      (sample_world [] "my.conf" sample_alice_text sample_alice_sections)
      (sample_given_config "my.conf") "my.conf" (by rfl) (by rfl)).2.2
      sample_alice_text (sample_key_file sample_alice_sections) "alice"
      ⟨.G_KEY_FILE_ERROR_KEY_NOT_FOUND, "Key file does not have key"⟩
      ⟨.G_KEY_FILE_ERROR_KEY_NOT_FOUND, "Key file does not have key"⟩
      (by rfl) (by rfl) (by decide) (by rfl) (by rfl) (by rfl)).1,
   ((C20_unknown_location
      (sample_world [] "my.conf" sample_alice_text sample_alice_sections)
      (sample_given_config "my.conf") "my.conf" (by rfl) (by rfl)).2.2
      sample_alice_text (sample_key_file sample_alice_sections) "alice"
      ⟨.G_KEY_FILE_ERROR_KEY_NOT_FOUND, "Key file does not have key"⟩
      ⟨.G_KEY_FILE_ERROR_KEY_NOT_FOUND, "Key file does not have key"⟩
      (by rfl) (by rfl) (by decide) (by rfl) (by rfl) (by rfl)).2⟩

end Mpdscribble
